import Mathlib

/-!
# The input verification step of the IBM Cloud VPC builder

A shallow embedding of `builder/ibmcloud/vpc/step_verify_input.go`
(`stepVerifyInput.Run` and `stepVerifyInput.Cleanup`) and theorems about it.

Go values are modelled as follows.

* A pointer `*T` is an `Option T`; `none` is the nil pointer and dereferencing it panics.
* An `error` is an `Option GoError`; only its `Error()` text is ever used by the step.
* An SDK call returns the Go triple `(result, response, err)` as a `Reply`; nothing
  ties the three components together, exactly as the Go types allow.
* The state bag is the function `Get` observes (`none` is the nil interface value).
* The effects of `Run` are recorded explicitly: the state bag, the sequence of `Put`
  calls, the lines sent to `ui.Error` and the sequence of outgoing service calls.
-/

set_option autoImplicit false

namespace VerifyInput

/-! ## Data model -/

/-- The two step actions of `multistep` used by the step. -/
inductive StepAction
  | ActionContinue
  | ActionHalt
  deriving DecidableEq

/-- A Go `error` value; the step only ever formats it with `%s`, that is, reads `Error()`. -/
structure GoError where
  Error : String
  deriving DecidableEq

/-- The part of `core.DetailedResponse` that the step reads. -/
structure DetailedResponse where
  StatusCode : Int
  deriving DecidableEq

/-- The Go triple `(result, response, err)` returned by an SDK operation. -/
structure Reply (α : Type) where
  result : Option α
  response : Option DetailedResponse
  err : Option GoError

/-- Modelled from the spec: the build configuration record `Config`, whose declaration is
not part of the verified file; these are the fields that `Run` reads, all Go strings. -/
structure Config where
  Region : String
  ResourceGroupID : String
  IAMEndpoint : String
  VSIBootVolumeID : String
  VSIBootSnapshotID : String
  ImageName : String
  SecurityGroupID : String
  deriving DecidableEq

/-- Modelled from the spec: the client record `IBMCloudClient`, whose declaration is not
part of the verified file; `Run` reads its API key only. -/
structure IBMCloudClient where
  IBMApiKey : String
  deriving DecidableEq

/-- The `vpcv1.OperatingSystem` reference of a volume or snapshot: `Architecture` is a
`*string`. -/
structure OperatingSystem where
  Architecture : Option String
  deriving DecidableEq

/-- The record `vpcv1.Volume`: the two pointer fields `Run` inspects, and every
remaining attribute kept uninterpreted as name/value pairs. -/
structure Volume where
  OperatingSystem : Option OperatingSystem
  AttachmentState : Option String
  other : List (String × String)
  deriving DecidableEq

/-- The record `vpcv1.Snapshot`: the pointer field `Run` inspects, and every remaining
attribute kept uninterpreted as name/value pairs. -/
structure Snapshot where
  OperatingSystem : Option OperatingSystem
  other : List (String × String)
  deriving DecidableEq

/-- An element of `vpcv1.ImageCollection.Images`; `Run` only counts them. -/
structure Image where
  other : List (String × String)
  deriving DecidableEq

/-- The record `vpcv1.ImageCollection`. -/
structure ImageCollection where
  Images : List Image
  deriving DecidableEq

/-- The record `vpcv1.VPCReference`: `ID` is a `*string`. -/
structure VPCReference where
  ID : Option String
  deriving DecidableEq

/-- The record `vpcv1.SecurityGroup`: `ID` is a `*string`, `VPC` a `*VPCReference`. -/
structure SecurityGroup where
  ID : Option String
  VPC : Option VPCReference
  other : List (String × String)
  deriving DecidableEq

/-- The record `vpcv1.Region`; `Run` discards it. -/
structure Region where
  other : List (String × String)
  deriving DecidableEq

/-- The record `resourcemanagerv2.ResourceGroup`; `Run` only tests it against nil. -/
structure ResourceGroup where
  other : List (String × String)
  deriving DecidableEq

/-- A VPC service `vpcv1.VpcV1`, given by its answer to each request `Run` can send.
The request of every operation used here carries one string. -/
structure VpcV1 where
  GetRegion : String → Reply Region
  GetVolume : String → Reply Volume
  GetSnapshot : String → Reply Snapshot
  ListImages : String → Reply ImageCollection
  GetSecurityGroup : String → Reply SecurityGroup

/-- A resource manager client `resourcemanagerv2.ResourceManagerV2`, given by its answer
to `GetResourceGroup`. -/
structure ResourceManagerV2 where
  GetResourceGroup : String → Reply ResourceGroup

/-- The constructor `resourcemanagerv2.NewResourceManagerV2UsingExternalConfig`, as a
function of the API key and IAM URL placed in the authenticator; it returns the Go pair
`(serviceClient, err)`. -/
abbrev ResourceManagerFactory := String → String → Option ResourceManagerV2 × Option GoError

/-- The dynamically typed values found in the state bag. -/
inductive Value
  | client (p : Option IBMCloudClient)
  | ui
  | config (c : Config)
  | vpcService (p : Option VpcV1)
  | error (e : GoError)
  | string (s : String)

/-- The state bag `multistep.StateBag` as observed through `Get`. -/
abbrev StateBag := String → Option Value

/-- The method `StateBag.Get`: the nil interface for a key without a value. -/
def StateBag.Get (state : StateBag) (key : String) : Option Value := state key

/-- The method `StateBag.Put`. -/
def StateBag.Put (state : StateBag) (key : String) (v : Value) : StateBag :=
  fun k => if k = key then some v else state k

/-- The bag with no entry. -/
def StateBag.empty : StateBag := fun _ => none

/-- An outgoing call of the step. -/
inductive Call
  | GetRegion (name : String)
  | NewResourceManagerV2UsingExternalConfig (apiKey url : String)
  | GetResourceGroup (id : String)
  | GetVolume (id : String)
  | GetSnapshot (id : String)
  | ListImages (name : String)
  | GetSecurityGroup (id : String)
  deriving DecidableEq

/-- Everything `Run` does to its surroundings, in order of occurrence. -/
structure Effects where
  state : StateBag
  puts : List (String × Value)
  uiErrors : List String
  calls : List Call

/-- The effects before `Run` has done anything. -/
def Effects.start (state : StateBag) : Effects := ⟨state, [], [], []⟩

/-! ## The execution monad -/

/-- One step of Go execution: a value and the effects so far, or a panic. -/
inductive Res (α : Type)
  | ok (a : α) (fx : Effects)
  | panic (fx : Effects)

/-- Go statements: effectful computations that may panic. -/
def Go (α : Type) : Type := Effects → Res α

instance : Monad Go where
  pure a := fun fx => Res.ok a fx
  bind m f := fun fx =>
    match m fx with
    | Res.ok a fx1 => f a fx1
    | Res.panic fx1 => Res.panic fx1

/-- A run-time panic. -/
def goPanic {α : Type} : Go α := fun fx => Res.panic fx

/-- Dereference of a pointer: panics on nil. -/
def deref {α : Type} : Option α → Go α
  | some a => pure a
  | none => goPanic

/-- The call `state.Get(key)`. -/
def stateGet (key : String) : Go (Option Value) := fun fx => Res.ok (fx.state.Get key) fx

/-- The call `state.Put(key, v)`. -/
def statePut (key : String) (v : Value) : Go Unit := fun fx =>
  Res.ok () { fx with state := fx.state.Put key v, puts := fx.puts ++ [(key, v)] }

/-- The call `ui.Error(line)`. -/
def uiError (line : String) : Go Unit := fun fx =>
  Res.ok () { fx with uiErrors := fx.uiErrors ++ [line] }

/-- Record a call of an operation of the SDK that has answered. -/
def issue (c : Call) : Go Unit := fun fx =>
  Res.ok () { fx with calls := fx.calls ++ [c] }

/-- The text of the error with which the options validation of the `vpcv1` package
rejects the options of a call. The text is fixed by the SDK and its validator, not by the
step, and is a parameter of the model. -/
abbrev OptionsValidation := Call → GoError

/-- The options validation at the head of every `vpcv1` operation, which runs before the
operation reads its receiver: the required string of `GetRegionOptions`,
`GetVolumeOptions`, `GetSnapshotOptions` and `GetSecurityGroupOptions` must not be
empty; `ListImagesOptions` has no required field. -/
def optionsError (invalid : OptionsValidation) (c : Call) : Option GoError :=
  match c with
  | Call.GetRegion name => if name = "" then some (invalid c) else none
  | Call.GetVolume id => if id = "" then some (invalid c) else none
  | Call.GetSnapshot id => if id = "" then some (invalid c) else none
  | Call.GetSecurityGroup id => if id = "" then some (invalid c) else none
  | _ => none

/-- A method of `*vpcv1.VpcV1` invoked on `vpcService`. On a service the answer, a
validation error included, is the one the service gives to the request. On the nil
pointer the operation still validates its options first and returns the validation
error, with no result and no response, when they are rejected; with accepted options it
goes on to read the fields of its receiver and panics. -/
def vpcCall {α : Type} (invalid : OptionsValidation) (vpcService : Option VpcV1) (c : Call)
    (op : VpcV1 → Reply α) : Go (Reply α) :=
  match vpcService with
  | some vpc => do
    issue c
    pure (op vpc)
  | none =>
    match optionsError invalid c with
    | some e => do
      issue c
      pure ⟨none, none, some e⟩
    | none => goPanic

/-- The verb `%s` applied to an `error` interface value: the text of the error, and
`%!s(<nil>)` for the nil interface. -/
def fmtErr : Option GoError → String
  | some e => e.Error
  | none => "%!s(<nil>)"

/-! ## The step -/

/-- The method `stepVerifyInput.Run`, statement by statement. The context argument is
ignored by the source and omitted. -/
def Run (invalid : OptionsValidation) (newResourceManager : ResourceManagerFactory) :
    Go StepAction := do
  -- client := state.Get("client").(*IBMCloudClient)
  let client : Option IBMCloudClient ←
    (do match (← stateGet "client") with
        | some (Value.client p) => pure p
        | _ => goPanic)
  -- ui := state.Get("ui").(packer.Ui)
  (do match (← stateGet "ui") with
      | some Value.ui => pure ()
      | _ => goPanic)
  -- config := state.Get("config").(Config)
  let config : Config ←
    (do match (← stateGet "config") with
        | some (Value.config c) => pure c
        | _ => goPanic)
  -- vpc service
  let vpcService : Option VpcV1 ←
    (do match (← stateGet "vpcService") with
        | none => pure none
        | some (Value.vpcService p) => pure p
        | some _ => goPanic)
  -- region check
  let r ← vpcCall invalid vpcService (Call.GetRegion config.Region) (fun vpc => vpc.GetRegion config.Region)
  if r.err.isSome then
    let err := "[ERROR] Error fetching region : " ++ config.Region ++ ": " ++ fmtErr r.err
    statePut "error" (Value.error ⟨err⟩)
    uiError err
    return StepAction.ActionHalt
  -- resource group check
  if config.ResourceGroupID ≠ "" then
    let c ← deref client
    issue (Call.NewResourceManagerV2UsingExternalConfig c.IBMApiKey config.IAMEndpoint)
    let (serviceClient, err) := newResourceManager c.IBMApiKey config.IAMEndpoint
    if err.isSome then
      let err := "[ERROR] Error creating instance of ResourceManagerV2 for resource group: "
        ++ config.ResourceGroupID ++ ": " ++ fmtErr err
      statePut "error" (Value.error ⟨err⟩)
      uiError err
      return StepAction.ActionHalt
    let sc ← deref serviceClient
    issue (Call.GetResourceGroup config.ResourceGroupID)
    let g := sc.GetResourceGroup config.ResourceGroupID
    if g.err.isSome then
      let err := "[ERROR] Error fetching resource group : " ++ config.ResourceGroupID ++ ": "
        ++ fmtErr g.err
      statePut "error" (Value.error ⟨err⟩)
      uiError err
      return StepAction.ActionHalt
    else if g.result.isNone then
      let err := "[ERROR] Resource group not found resource_group_id : "
        ++ config.ResourceGroupID ++ ": " ++ fmtErr g.err
      statePut "error" (Value.error ⟨err⟩)
      uiError err
      return StepAction.ActionHalt
  -- boot volume id validation
  if config.VSIBootVolumeID ≠ "" then
    let v ← vpcCall invalid vpcService (Call.GetVolume config.VSIBootVolumeID)
      (fun vpc => vpc.GetVolume config.VSIBootVolumeID)
    if v.err.isSome then
      if v.response.isSome && v.response.any (fun resp => resp.StatusCode == 404) then
        let err := "[ERROR] Boot volume provided is not found " ++ config.VSIBootVolumeID ++ ":"
        statePut "error" (Value.error ⟨err⟩)
        uiError err
        return StepAction.ActionHalt
      let err := "[ERROR] Error fetching volume " ++ config.VSIBootVolumeID
      statePut "error" (Value.error ⟨err⟩)
      uiError err
      return StepAction.ActionHalt
    let bootVolume ← deref v.result
    if bootVolume.OperatingSystem.isNone
        || bootVolume.OperatingSystem.any (fun os => os.Architecture.isNone) then
      let err := "[ERROR] Provided volume " ++ config.VSIBootVolumeID
        ++ " is not a bootable volume. Please provide an unattached bootable volume"
      statePut "error" (Value.error ⟨err⟩)
      uiError err
      return StepAction.ActionHalt
    if bootVolume.AttachmentState.isSome
        && bootVolume.AttachmentState.any (fun s => s != "unattached") then
      let err := "[ERROR] Provided volume " ++ config.VSIBootVolumeID
        ++ " is either already attached or unusuble. Please provide an unattached bootable volume"
      statePut "error" (Value.error ⟨err⟩)
      uiError err
      return StepAction.ActionHalt
  -- boot snapshot support
  if config.VSIBootSnapshotID ≠ "" then
    let s ← vpcCall invalid vpcService (Call.GetSnapshot config.VSIBootSnapshotID)
      (fun vpc => vpc.GetSnapshot config.VSIBootSnapshotID)
    if s.err.isSome then
      if s.response.isSome && s.response.any (fun resp => resp.StatusCode == 404) then
        let err := "[ERROR] Boot snapahot provided is not found " ++ config.VSIBootSnapshotID ++ ":"
        statePut "error" (Value.error ⟨err⟩)
        uiError err
        return StepAction.ActionHalt
      let err := "[ERROR] Error fetching snapshot " ++ config.VSIBootSnapshotID
      statePut "error" (Value.error ⟨err⟩)
      uiError err
      return StepAction.ActionHalt
    let bootSnapshot ← deref s.result
    if bootSnapshot.OperatingSystem.isNone
        || bootSnapshot.OperatingSystem.any (fun os => os.Architecture.isNone) then
      let err := "[ERROR] Provided snapshot " ++ config.VSIBootSnapshotID
        ++ " is not a bootable snapshot. Please provide an unattached bootable snapshot"
      statePut "error" (Value.error ⟨err⟩)
      uiError err
      return StepAction.ActionHalt
  -- image check
  let l ← vpcCall invalid vpcService (Call.ListImages config.ImageName)
    (fun vpc => vpc.ListImages config.ImageName)
  if l.err.isSome then
    let err := "[ERROR] Error fetching custom image " ++ fmtErr l.err
    statePut "error" (Value.error ⟨err⟩)
    uiError err
    return StepAction.ActionHalt
  let availableImages ← deref l.result
  let allrecs := availableImages.Images
  if allrecs.length ≠ 0 then
    let err := "[ERROR] An Image exist with the same name " ++ config.ImageName ++ ":"
    statePut "error" (Value.error ⟨err⟩)
    uiError err
    return StepAction.ActionHalt
  -- security group verification
  if config.SecurityGroupID ≠ "" then
    let g ← vpcCall invalid vpcService (Call.GetSecurityGroup config.SecurityGroupID)
      (fun vpc => vpc.GetSecurityGroup config.SecurityGroupID)
    if g.err.isSome then
      let err := "[ERROR] Error fetching security group " ++ fmtErr g.err
      statePut "error" (Value.error ⟨err⟩)
      uiError err
      return StepAction.ActionHalt
    let secGrp ← deref g.result
    let secGrpID ← deref secGrp.ID
    if secGrpID ≠ "" then
      let vpc ← deref secGrp.VPC
      let vpcID ← deref vpc.ID
      statePut "user_sec_grp_vpc" (Value.string vpcID)
  return StepAction.ActionContinue

/-- The method `stepVerifyInput.Cleanup`: its body is empty. -/
def Cleanup (state : StateBag) : StateBag := state

/-! ## The six checks, one by one

Each check is described on its own: the requests it issues when it is run and its
verdict, as a function of the configuration and of the answers of the services. -/

/-- The verdict of one check: it passes (possibly with a fact to publish under
`user_sec_grp_vpc`), it fails with the text of an error, or it panics. -/
inductive Verdict
  | pass (publish : Option String)
  | fail (msg : String)
  | crash
  deriving DecidableEq

/-- What one check does when it is run. -/
structure CheckRun where
  calls : List Call
  verdict : Verdict
  deriving DecidableEq

/-- A check that is not applicable: no request, and it passes. -/
def CheckRun.skip : CheckRun := ⟨[], Verdict.pass none⟩

/-- Check 1: look the configured region up by name. Without a service the lookup is
answered by the options validation alone: an empty region name is rejected with an error,
any other name makes the lookup panic. -/
def regionCheck (invalid : OptionsValidation) (config : Config) (vpcService : Option VpcV1) :
    CheckRun :=
  match vpcService with
  | none =>
    match optionsError invalid (Call.GetRegion config.Region) with
    | some e =>
      ⟨[Call.GetRegion config.Region],
        Verdict.fail ("[ERROR] Error fetching region : " ++ config.Region ++ ": " ++ e.Error)⟩
    | none => ⟨[], Verdict.crash⟩
  | some vpc =>
    ⟨[Call.GetRegion config.Region],
      match (vpc.GetRegion config.Region).err with
      | some e => Verdict.fail ("[ERROR] Error fetching region : " ++ config.Region ++ ": " ++ e.Error)
      | none => Verdict.pass none⟩

/-- Check 2: only with a resource group ID, build the resource manager client and look
the group up. -/
def resourceGroupCheck (newResourceManager : ResourceManagerFactory)
    (client : Option IBMCloudClient) (config : Config) : CheckRun :=
  if config.ResourceGroupID = "" then CheckRun.skip
  else
    match client with
    | none => ⟨[], Verdict.crash⟩
    | some c =>
      let made := Call.NewResourceManagerV2UsingExternalConfig c.IBMApiKey config.IAMEndpoint
      match newResourceManager c.IBMApiKey config.IAMEndpoint with
      | (_, some e) =>
        ⟨[made], Verdict.fail ("[ERROR] Error creating instance of ResourceManagerV2 for resource group: "
          ++ config.ResourceGroupID ++ ": " ++ e.Error)⟩
      | (none, none) => ⟨[made], Verdict.crash⟩
      | (some sc, none) =>
        ⟨[made, Call.GetResourceGroup config.ResourceGroupID],
          match (sc.GetResourceGroup config.ResourceGroupID).err,
            (sc.GetResourceGroup config.ResourceGroupID).result with
          | some e, _ =>
            Verdict.fail ("[ERROR] Error fetching resource group : " ++ config.ResourceGroupID
              ++ ": " ++ e.Error)
          | none, none =>
            Verdict.fail ("[ERROR] Resource group not found resource_group_id : "
              ++ config.ResourceGroupID ++ ": " ++ "%!s(<nil>)")
          | none, some _ => Verdict.pass none⟩

/-- The verdict on the answer to `GetVolume`. -/
def volumeVerdict (id : String) (v : Reply Volume) : Verdict :=
  match v.err, v.response, v.result with
  | some _, some resp, _ =>
    if resp.StatusCode = 404 then
      Verdict.fail ("[ERROR] Boot volume provided is not found " ++ id ++ ":")
    else Verdict.fail ("[ERROR] Error fetching volume " ++ id)
  | some _, none, _ => Verdict.fail ("[ERROR] Error fetching volume " ++ id)
  | none, _, none => Verdict.crash
  | none, _, some vol =>
    match vol.OperatingSystem, vol.AttachmentState with
    | none, _ =>
      Verdict.fail ("[ERROR] Provided volume " ++ id
        ++ " is not a bootable volume. Please provide an unattached bootable volume")
    | some ⟨none⟩, _ =>
      Verdict.fail ("[ERROR] Provided volume " ++ id
        ++ " is not a bootable volume. Please provide an unattached bootable volume")
    | some ⟨some _⟩, none => Verdict.pass none
    | some ⟨some _⟩, some st =>
      if st = "unattached" then Verdict.pass none
      else Verdict.fail ("[ERROR] Provided volume " ++ id
        ++ " is either already attached or unusuble. Please provide an unattached bootable volume")

/-- Check 3: only with a boot volume ID, look the volume up and inspect it. -/
def bootVolumeCheck (config : Config) (vpcService : Option VpcV1) : CheckRun :=
  if config.VSIBootVolumeID = "" then CheckRun.skip
  else
    match vpcService with
    | none => ⟨[], Verdict.crash⟩
    | some vpc =>
      ⟨[Call.GetVolume config.VSIBootVolumeID],
        volumeVerdict config.VSIBootVolumeID (vpc.GetVolume config.VSIBootVolumeID)⟩

/-- The verdict on the answer to `GetSnapshot`. -/
def snapshotVerdict (id : String) (s : Reply Snapshot) : Verdict :=
  match s.err, s.response, s.result with
  | some _, some resp, _ =>
    if resp.StatusCode = 404 then
      Verdict.fail ("[ERROR] Boot snapahot provided is not found " ++ id ++ ":")
    else Verdict.fail ("[ERROR] Error fetching snapshot " ++ id)
  | some _, none, _ => Verdict.fail ("[ERROR] Error fetching snapshot " ++ id)
  | none, _, none => Verdict.crash
  | none, _, some snap =>
    match snap.OperatingSystem with
    | none =>
      Verdict.fail ("[ERROR] Provided snapshot " ++ id
        ++ " is not a bootable snapshot. Please provide an unattached bootable snapshot")
    | some ⟨none⟩ =>
      Verdict.fail ("[ERROR] Provided snapshot " ++ id
        ++ " is not a bootable snapshot. Please provide an unattached bootable snapshot")
    | some ⟨some _⟩ => Verdict.pass none

/-- Check 4: only with a boot snapshot ID, look the snapshot up and inspect it. -/
def bootSnapshotCheck (config : Config) (vpcService : Option VpcV1) : CheckRun :=
  if config.VSIBootSnapshotID = "" then CheckRun.skip
  else
    match vpcService with
    | none => ⟨[], Verdict.crash⟩
    | some vpc =>
      ⟨[Call.GetSnapshot config.VSIBootSnapshotID],
        snapshotVerdict config.VSIBootSnapshotID (vpc.GetSnapshot config.VSIBootSnapshotID)⟩

/-- The verdict on the answer to `ListImages`. -/
def imageVerdict (name : String) (l : Reply ImageCollection) : Verdict :=
  match l.err, l.result with
  | some e, _ => Verdict.fail ("[ERROR] Error fetching custom image " ++ e.Error)
  | none, none => Verdict.crash
  | none, some coll =>
    match coll.Images with
    | [] => Verdict.pass none
    | _ :: _ => Verdict.fail ("[ERROR] An Image exist with the same name " ++ name ++ ":")

/-- Check 5: always, list the images that carry the configured name. -/
def imageNameCheck (config : Config) (vpcService : Option VpcV1) : CheckRun :=
  match vpcService with
  | none => ⟨[], Verdict.crash⟩
  | some vpc =>
    ⟨[Call.ListImages config.ImageName], imageVerdict config.ImageName (vpc.ListImages config.ImageName)⟩

/-- The verdict on the answer to `GetSecurityGroup`. -/
def securityGroupVerdict (g : Reply SecurityGroup) : Verdict :=
  match g.err, g.result with
  | some e, _ => Verdict.fail ("[ERROR] Error fetching security group " ++ e.Error)
  | none, none => Verdict.crash
  | none, some grp =>
    match grp.ID with
    | none => Verdict.crash
    | some id =>
      if id = "" then Verdict.pass none
      else
        match grp.VPC with
        | none => Verdict.crash
        | some ⟨none⟩ => Verdict.crash
        | some ⟨some vpcID⟩ => Verdict.pass (some vpcID)

/-- Check 6: only with a security group ID, look the group up and publish its network. -/
def securityGroupCheck (config : Config) (vpcService : Option VpcV1) : CheckRun :=
  if config.SecurityGroupID = "" then CheckRun.skip
  else
    match vpcService with
    | none => ⟨[], Verdict.crash⟩
    | some vpc =>
      ⟨[Call.GetSecurityGroup config.SecurityGroupID],
        securityGroupVerdict (vpc.GetSecurityGroup config.SecurityGroupID)⟩

/-- The six checks in the order region, resource group, boot volume, boot snapshot,
image name, security group. -/
def checks (invalid : OptionsValidation) (newResourceManager : ResourceManagerFactory)
    (client : Option IBMCloudClient) (config : Config) (vpcService : Option VpcV1) :
    List CheckRun :=
  [regionCheck invalid config vpcService,
   resourceGroupCheck newResourceManager client config,
   bootVolumeCheck config vpcService,
   bootSnapshotCheck config vpcService,
   imageNameCheck config vpcService,
   securityGroupCheck config vpcService]

/-- The reporting of a failure: the error is stored under `error`, its text goes to
`ui.Error`. -/
def Effects.report (fx : Effects) (msg : String) : Effects :=
  { fx with
    state := fx.state.Put "error" (Value.error ⟨msg⟩)
    puts := fx.puts ++ [("error", Value.error ⟨msg⟩)]
    uiErrors := fx.uiErrors ++ [msg] }

/-- The publication of a fact under `user_sec_grp_vpc`. -/
def Effects.publish (fx : Effects) : Option String → Effects
  | none => fx
  | some v =>
    { fx with
      state := fx.state.Put "user_sec_grp_vpc" (Value.string v)
      puts := fx.puts ++ [("user_sec_grp_vpc", Value.string v)] }

/-- A first-failure scan: run the checks from left to right, stop at the first one that
does not pass. -/
def scan : List CheckRun → Effects → Res StepAction
  | [], fx => Res.ok StepAction.ActionContinue fx
  | c :: rest, fx =>
    let fx1 : Effects := { fx with calls := fx.calls ++ c.calls }
    match c.verdict with
    | Verdict.pass p => scan rest (fx1.publish p)
    | Verdict.fail msg => Res.ok StepAction.ActionHalt (fx1.report msg)
    | Verdict.crash => Res.panic fx1

/-- The typed reads at the head of `Run`: the client, the configuration and the VPC
service found in the state bag, or `none` when a type assertion panics. -/
def entries (state : StateBag) : Option (Option IBMCloudClient × Config × Option VpcV1) :=
  match state.Get "client", state.Get "ui", state.Get "config" with
  | some (Value.client client), some Value.ui, some (Value.config config) =>
    match state.Get "vpcService" with
    | none => some (client, config, none)
    | some (Value.vpcService p) => some (client, config, p)
    | some _ => none
  | _, _, _ => none

/-- The result of running the step on a state bag. -/
def runStep (invalid : OptionsValidation) (newResourceManager : ResourceManagerFactory)
    (state : StateBag) : Res StepAction :=
  Run invalid newResourceManager (Effects.start state)

/-! ## Reading a result -/

/-- The action returned, if the step returned. -/
def Res.action : Res StepAction → Option StepAction
  | Res.ok a _ => some a
  | Res.panic _ => none

/-- The effects at the end of the execution. -/
def Res.effects {α : Type} : Res α → Effects
  | Res.ok _ fx => fx
  | Res.panic fx => fx

/-- The text `msg` contains the text `v`. -/
def Contains (msg v : String) : Prop := ∃ a b : String, msg = a ++ v ++ b

/-- The text `msg` starts with the severity mark `[ERROR]`. -/
def MarkedError (msg : String) : Prop := ∃ rest : String, msg = "[ERROR]" ++ rest

/-! ## The blocks of `Run`

`Run` is one function. For the proofs its body is cut at the comments of the source into
blocks that take the rest of the function as an argument; `Run_blocks` shows that the
cut changes nothing. -/

/-- The region block of `Run`, followed by `k`. -/
def regionBlock (invalid : OptionsValidation) (config : Config) (vpcService : Option VpcV1)
    (k : Go StepAction) : Go StepAction := do
  let r ← vpcCall invalid vpcService (Call.GetRegion config.Region) (fun vpc => vpc.GetRegion config.Region)
  if r.err.isSome then
    let err := "[ERROR] Error fetching region : " ++ config.Region ++ ": " ++ fmtErr r.err
    statePut "error" (Value.error ⟨err⟩)
    uiError err
    return StepAction.ActionHalt
  k

/-- The resource group block of `Run`, followed by `k`. -/
def resourceGroupBlock (newResourceManager : ResourceManagerFactory) (client : Option IBMCloudClient)
    (config : Config) (k : Go StepAction) : Go StepAction := do
  if config.ResourceGroupID ≠ "" then
    let c ← deref client
    issue (Call.NewResourceManagerV2UsingExternalConfig c.IBMApiKey config.IAMEndpoint)
    let (serviceClient, err) := newResourceManager c.IBMApiKey config.IAMEndpoint
    if err.isSome then
      let err := "[ERROR] Error creating instance of ResourceManagerV2 for resource group: "
        ++ config.ResourceGroupID ++ ": " ++ fmtErr err
      statePut "error" (Value.error ⟨err⟩)
      uiError err
      return StepAction.ActionHalt
    let sc ← deref serviceClient
    issue (Call.GetResourceGroup config.ResourceGroupID)
    let g := sc.GetResourceGroup config.ResourceGroupID
    if g.err.isSome then
      let err := "[ERROR] Error fetching resource group : " ++ config.ResourceGroupID ++ ": "
        ++ fmtErr g.err
      statePut "error" (Value.error ⟨err⟩)
      uiError err
      return StepAction.ActionHalt
    else if g.result.isNone then
      let err := "[ERROR] Resource group not found resource_group_id : "
        ++ config.ResourceGroupID ++ ": " ++ fmtErr g.err
      statePut "error" (Value.error ⟨err⟩)
      uiError err
      return StepAction.ActionHalt
  k

/-- The boot volume block of `Run`, followed by `k`. -/
def bootVolumeBlock (invalid : OptionsValidation) (config : Config) (vpcService : Option VpcV1)
    (k : Go StepAction) : Go StepAction := do
  if config.VSIBootVolumeID ≠ "" then
    let v ← vpcCall invalid vpcService (Call.GetVolume config.VSIBootVolumeID)
      (fun vpc => vpc.GetVolume config.VSIBootVolumeID)
    if v.err.isSome then
      if v.response.isSome && v.response.any (fun resp => resp.StatusCode == 404) then
        let err := "[ERROR] Boot volume provided is not found " ++ config.VSIBootVolumeID ++ ":"
        statePut "error" (Value.error ⟨err⟩)
        uiError err
        return StepAction.ActionHalt
      let err := "[ERROR] Error fetching volume " ++ config.VSIBootVolumeID
      statePut "error" (Value.error ⟨err⟩)
      uiError err
      return StepAction.ActionHalt
    let bootVolume ← deref v.result
    if bootVolume.OperatingSystem.isNone
        || bootVolume.OperatingSystem.any (fun os => os.Architecture.isNone) then
      let err := "[ERROR] Provided volume " ++ config.VSIBootVolumeID
        ++ " is not a bootable volume. Please provide an unattached bootable volume"
      statePut "error" (Value.error ⟨err⟩)
      uiError err
      return StepAction.ActionHalt
    if bootVolume.AttachmentState.isSome
        && bootVolume.AttachmentState.any (fun s => s != "unattached") then
      let err := "[ERROR] Provided volume " ++ config.VSIBootVolumeID
        ++ " is either already attached or unusuble. Please provide an unattached bootable volume"
      statePut "error" (Value.error ⟨err⟩)
      uiError err
      return StepAction.ActionHalt
  k

/-- The boot snapshot block of `Run`, followed by `k`. -/
def bootSnapshotBlock (invalid : OptionsValidation) (config : Config) (vpcService : Option VpcV1)
    (k : Go StepAction) : Go StepAction := do
  if config.VSIBootSnapshotID ≠ "" then
    let s ← vpcCall invalid vpcService (Call.GetSnapshot config.VSIBootSnapshotID)
      (fun vpc => vpc.GetSnapshot config.VSIBootSnapshotID)
    if s.err.isSome then
      if s.response.isSome && s.response.any (fun resp => resp.StatusCode == 404) then
        let err := "[ERROR] Boot snapahot provided is not found " ++ config.VSIBootSnapshotID ++ ":"
        statePut "error" (Value.error ⟨err⟩)
        uiError err
        return StepAction.ActionHalt
      let err := "[ERROR] Error fetching snapshot " ++ config.VSIBootSnapshotID
      statePut "error" (Value.error ⟨err⟩)
      uiError err
      return StepAction.ActionHalt
    let bootSnapshot ← deref s.result
    if bootSnapshot.OperatingSystem.isNone
        || bootSnapshot.OperatingSystem.any (fun os => os.Architecture.isNone) then
      let err := "[ERROR] Provided snapshot " ++ config.VSIBootSnapshotID
        ++ " is not a bootable snapshot. Please provide an unattached bootable snapshot"
      statePut "error" (Value.error ⟨err⟩)
      uiError err
      return StepAction.ActionHalt
  k

/-- The image block of `Run`, followed by `k`. -/
def imageBlock (invalid : OptionsValidation) (config : Config) (vpcService : Option VpcV1)
    (k : Go StepAction) : Go StepAction := do
  let l ← vpcCall invalid vpcService (Call.ListImages config.ImageName)
    (fun vpc => vpc.ListImages config.ImageName)
  if l.err.isSome then
    let err := "[ERROR] Error fetching custom image " ++ fmtErr l.err
    statePut "error" (Value.error ⟨err⟩)
    uiError err
    return StepAction.ActionHalt
  let availableImages ← deref l.result
  let allrecs := availableImages.Images
  if allrecs.length ≠ 0 then
    let err := "[ERROR] An Image exist with the same name " ++ config.ImageName ++ ":"
    statePut "error" (Value.error ⟨err⟩)
    uiError err
    return StepAction.ActionHalt
  k

/-- The security group block of `Run`, followed by `k`. -/
def securityGroupBlock (invalid : OptionsValidation) (config : Config) (vpcService : Option VpcV1)
    (k : Go StepAction) : Go StepAction := do
  if config.SecurityGroupID ≠ "" then
    let g ← vpcCall invalid vpcService (Call.GetSecurityGroup config.SecurityGroupID)
      (fun vpc => vpc.GetSecurityGroup config.SecurityGroupID)
    if g.err.isSome then
      let err := "[ERROR] Error fetching security group " ++ fmtErr g.err
      statePut "error" (Value.error ⟨err⟩)
      uiError err
      return StepAction.ActionHalt
    let secGrp ← deref g.result
    let secGrpID ← deref secGrp.ID
    if secGrpID ≠ "" then
      let vpc ← deref secGrp.VPC
      let vpcID ← deref vpc.ID
      statePut "user_sec_grp_vpc" (Value.string vpcID)
  k

/-- The typed reads at the head of `Run`, followed by `k`. -/
def readEntries (k : Option IBMCloudClient → Config → Option VpcV1 → Go StepAction) : Go StepAction := do
  let client : Option IBMCloudClient ←
    (do match (← stateGet "client") with
        | some (Value.client p) => pure p
        | _ => goPanic)
  (do match (← stateGet "ui") with
      | some Value.ui => pure ()
      | _ => goPanic)
  let config : Config ←
    (do match (← stateGet "config") with
        | some (Value.config c) => pure c
        | _ => goPanic)
  let vpcService : Option VpcV1 ←
    (do match (← stateGet "vpcService") with
        | none => pure none
        | some (Value.vpcService p) => pure p
        | some _ => goPanic)
  k client config vpcService

/-- One check of the scan followed by `k`. -/
def step (c : CheckRun) (k : Go StepAction) : Go StepAction := fun fx =>
  match c.verdict with
  | Verdict.pass p => k ({ fx with calls := fx.calls ++ c.calls }.publish p)
  | Verdict.fail msg => Res.ok StepAction.ActionHalt ({ fx with calls := fx.calls ++ c.calls }.report msg)
  | Verdict.crash => Res.panic { fx with calls := fx.calls ++ c.calls }


/-- The result of a halt on the state bag `state` with the error text `msg`, after the
requests `calls`: the error is stored under `error`, the text is the only line sent to
`ui.Error`, and nothing else is written. -/
def halted (state : StateBag) (msg : String) (calls : List Call) : Res StepAction :=
  Res.ok StepAction.ActionHalt
    { state := state.Put "error" (Value.error ⟨msg⟩)
      puts := [("error", Value.error ⟨msg⟩)]
      uiErrors := [msg]
      calls := calls }

/-- The verdict is a pass. -/
def Verdict.passes : Verdict → Bool
  | Verdict.pass _ => true
  | _ => false

/-- The execution went on to a further request after the request `c`. -/
def GoesOnAfter (c : Call) (r : Res StepAction) : Prop :=
  ∃ (before : List Call) (next : Call) (later : List Call),
    r.effects.calls = before ++ c :: next :: later

/-- The position, in the order of the checks, of the check that issues the request. -/
def Call.check : Call → Nat
  | Call.GetRegion _ => 0
  | Call.NewResourceManagerV2UsingExternalConfig _ _ => 1
  | Call.GetResourceGroup _ => 1
  | Call.GetVolume _ => 2
  | Call.GetSnapshot _ => 3
  | Call.ListImages _ => 4
  | Call.GetSecurityGroup _ => 5

/-! ## Sample inputs -/

/-- The configuration of the end-to-end scenario: region `us-south`, image name
`my-new-image`, no resource group, boot volume, boot snapshot or security group. -/
def exampleConfig : Config :=
  { Region := "us-south"
    ResourceGroupID := ""
    IAMEndpoint := "https://iam.cloud.ibm.com/identity/token"
    VSIBootVolumeID := ""
    VSIBootSnapshotID := ""
    ImageName := "my-new-image"
    SecurityGroupID := "" }

/-- A VPC service on which every lookup succeeds: the region exists, volumes are
unattached and bootable, snapshots are bootable, no image carries the requested name and
the security group `sg-1` belongs to the network `vpc-1`. -/
def exampleVpc : VpcV1 :=
  { GetRegion := fun _ => ⟨some ⟨[]⟩, some ⟨200⟩, none⟩
    GetVolume := fun _ =>
      ⟨some ⟨some ⟨some "amd64"⟩, some "unattached", []⟩, some ⟨200⟩, none⟩
    GetSnapshot := fun _ => ⟨some ⟨some ⟨some "amd64"⟩, []⟩, some ⟨200⟩, none⟩
    ListImages := fun _ => ⟨some ⟨[]⟩, some ⟨200⟩, none⟩
    GetSecurityGroup := fun _ =>
      ⟨some ⟨some "sg-1", some ⟨some "vpc-1"⟩, []⟩, some ⟨200⟩, none⟩ }

/-- A sample text for the validation error of the SDK. -/
def exampleValidation : OptionsValidation := fun _ => ⟨"options failed validation"⟩

/-- A resource manager constructor that succeeds, with a client that finds every group. -/
def exampleFactory : ResourceManagerFactory :=
  fun _ _ => (some ⟨fun _ => ⟨some ⟨[]⟩, some ⟨200⟩, none⟩⟩, none)

/-- A resource manager constructor that succeeds, with a client whose lookup yields
neither a group nor an error. -/
def emptyAnswerFactory : ResourceManagerFactory :=
  fun _ _ => (some ⟨fun _ => ⟨none, some ⟨200⟩, none⟩⟩, none)

/-- The client stored in the sample state bags. -/
def exampleClient : IBMCloudClient := ⟨"api-key"⟩

/-- A state bag with the three required entries and no `vpcService` entry. -/
def bagWithoutService (config : Config) : StateBag :=
  ((StateBag.empty.Put "client" (Value.client (some exampleClient))).Put "ui" Value.ui).Put
    "config" (Value.config config)

/-- A state bag with the three required entries and a VPC service. -/
def exampleBag (config : Config) (vpc : VpcV1) : StateBag :=
  (bagWithoutService config).Put "vpcService" (Value.vpcService (some vpc))

/-- A VPC service on which the requested image name is already taken. -/
def takenNameVpc : VpcV1 :=
  { exampleVpc with ListImages := fun _ => ⟨some ⟨[⟨[]⟩]⟩, some ⟨200⟩, none⟩ }

/-- A VPC service whose volumes are attached. -/
def attachedVolumeVpc : VpcV1 :=
  { exampleVpc with
    GetVolume := fun _ =>
      ⟨some ⟨some ⟨some "amd64"⟩, some "attached", []⟩, some ⟨200⟩, none⟩ }

/-- A VPC service that knows no snapshot: every lookup is answered with status 404. -/
def missingSnapshotVpc : VpcV1 :=
  { exampleVpc with GetSnapshot := fun _ => ⟨none, some ⟨404⟩, some ⟨"Not Found"⟩⟩ }

/-- A VPC service whose security group lookup fails. -/
def failingGroupVpc : VpcV1 :=
  { exampleVpc with GetSecurityGroup := fun _ => ⟨none, some ⟨500⟩, some ⟨"boom"⟩⟩ }

/-- A VPC service whose image listing fails. -/
def failingListVpc : VpcV1 :=
  { exampleVpc with ListImages := fun _ => ⟨none, some ⟨500⟩, some ⟨"boom"⟩⟩ }

/-- A VPC service whose security group lookup succeeds with a group that carries no ID. -/
def groupWithoutIDVpc : VpcV1 :=
  { exampleVpc with
    GetSecurityGroup := fun _ => ⟨some ⟨none, some ⟨some "vpc-1"⟩, []⟩, some ⟨200⟩, none⟩ }

/-- A VPC service whose security group lookup succeeds with a group that carries an ID
and no VPC reference. -/
def groupWithoutNetworkVpc : VpcV1 :=
  { exampleVpc with
    GetSecurityGroup := fun _ => ⟨some ⟨some "sg-1", none, []⟩, some ⟨200⟩, none⟩ }

/-- The scenario configuration with the security group `sg-1`. -/
def groupConfig : Config := { exampleConfig with SecurityGroupID := "sg-1" }

/-- The scenario configuration with the resource group `rg-1`. -/
def resourceGroupConfig : Config := { exampleConfig with ResourceGroupID := "rg-1" }

/-- The scenario configuration with the boot volume `vol-1`. -/
def volumeConfig : Config := { exampleConfig with VSIBootVolumeID := "vol-1" }

/-- The scenario configuration with the boot volume `vol-1` and the boot snapshot
`snap-1`. -/
def snapshotConfig : Config :=
  { exampleConfig with VSIBootVolumeID := "vol-1", VSIBootSnapshotID := "snap-1" }

/-- A VPC service whose volume lookup succeeds without a volume: no result and no error,
as the SDK returns for an empty response body. No image carries the requested name. -/
def volumeWithoutResultVpc : VpcV1 :=
  { exampleVpc with GetVolume := fun _ => ⟨none, some ⟨200⟩, none⟩ }

/-- A VPC service whose volume lookup succeeds without a volume and on which the requested
image name is already taken. -/
def volumeWithoutResultTakenNameVpc : VpcV1 :=
  { takenNameVpc with GetVolume := fun _ => ⟨none, some ⟨200⟩, none⟩ }

/-- The scenario configuration with an empty region name. -/
def noRegionConfig : Config := { exampleConfig with Region := "" }

/-! ## The step is the scan of its six checks -/

theorem Run_blocks (invalid : OptionsValidation) (rm : ResourceManagerFactory) :
    Run invalid rm = readEntries (fun client config vpcService =>
      regionBlock invalid config vpcService (resourceGroupBlock rm client config
        (bootVolumeBlock invalid config vpcService (bootSnapshotBlock invalid config vpcService
          (imageBlock invalid config vpcService (securityGroupBlock invalid config vpcService
            (pure StepAction.ActionContinue))))))) := by
  rfl

theorem scan_cons (c : CheckRun) (rest : List CheckRun) : scan (c :: rest) = step c (scan rest) := by
  funext fx
  simp only [scan, step]

theorem regionBlock_eq {invalid : OptionsValidation} (config : Config) (vpcService : Option VpcV1) (k : Go StepAction) :
    regionBlock invalid config vpcService k = step (regionCheck invalid config vpcService) k := by
  funext fx
  cases vpcService with
  | none =>
    by_cases hr : config.Region = "" <;>
      simp [regionBlock, step, regionCheck, vpcCall, optionsError, hr, bind, pure, goPanic,
        issue, statePut, uiError, Effects.report, fmtErr]
  | some vpc =>
    simp only [regionBlock, step, regionCheck, vpcCall, deref, bind, pure, issue, statePut, uiError]
    generalize vpc.GetRegion config.Region = r
    rcases r with ⟨_, _, _ | e⟩ <;> simp [Effects.report, Effects.publish, fmtErr]

theorem resourceGroupBlock_eq (rm : ResourceManagerFactory) (client : Option IBMCloudClient)
    (config : Config) (k : Go StepAction) :
    resourceGroupBlock rm client config k = step (resourceGroupCheck rm client config) k := by
  funext fx
  by_cases h : config.ResourceGroupID = ""
  · simp [resourceGroupBlock, step, resourceGroupCheck, h, CheckRun.skip, Effects.publish, bind, pure]
  · cases client with
    | none => simp [resourceGroupBlock, step, resourceGroupCheck, h, deref, bind, goPanic]
    | some c =>
      simp only [resourceGroupBlock, step, resourceGroupCheck, h, deref, bind, pure, issue, statePut,
        uiError, goPanic, ne_eq, not_false_eq_true, ↓reduceIte]
      generalize rm c.IBMApiKey config.IAMEndpoint = made
      rcases made with ⟨_ | sc, _ | e⟩
      · simp [Effects.report, Effects.publish, fmtErr, goPanic]
      · simp [Effects.report, Effects.publish, fmtErr]
      · simp only [Option.isSome_none, Bool.false_eq_true, ↓reduceIte]
        generalize sc.GetResourceGroup config.ResourceGroupID = g
        rcases g with ⟨_ | _, _, _ | e⟩ <;> simp [Effects.report, Effects.publish, fmtErr]
      · simp [Effects.report, Effects.publish, fmtErr]


theorem bootVolumeBlock_eq {invalid : OptionsValidation} (config : Config) (vpcService : Option VpcV1) (k : Go StepAction) :
    bootVolumeBlock invalid config vpcService k = step (bootVolumeCheck config vpcService) k := by
  funext fx
  by_cases h : config.VSIBootVolumeID = ""
  · simp [bootVolumeBlock, step, bootVolumeCheck, h, CheckRun.skip, Effects.publish, bind, pure]
  · cases vpcService with
    | none =>
      simp [bootVolumeBlock, step, bootVolumeCheck, h, vpcCall, optionsError, bind, goPanic]
    | some vpc =>
      simp only [bootVolumeBlock, step, bootVolumeCheck, h, vpcCall, deref, bind, pure, issue, statePut,
        uiError, ne_eq, not_false_eq_true, ↓reduceIte]
      generalize vpc.GetVolume config.VSIBootVolumeID = v
      rcases v with ⟨_ | ⟨_ | ⟨_ | arch⟩, _ | att, _⟩, _ | ⟨code⟩, _ | e⟩ <;>
        simp [volumeVerdict, Effects.report, Effects.publish, goPanic] <;>
        split <;> simp_all

theorem bootSnapshotBlock_eq {invalid : OptionsValidation} (config : Config) (vpcService : Option VpcV1) (k : Go StepAction) :
    bootSnapshotBlock invalid config vpcService k = step (bootSnapshotCheck config vpcService) k := by
  funext fx
  by_cases h : config.VSIBootSnapshotID = ""
  · simp [bootSnapshotBlock, step, bootSnapshotCheck, h, CheckRun.skip, Effects.publish, bind, pure]
  · cases vpcService with
    | none =>
      simp [bootSnapshotBlock, step, bootSnapshotCheck, h, vpcCall, optionsError, bind, goPanic]
    | some vpc =>
      simp only [bootSnapshotBlock, step, bootSnapshotCheck, h, vpcCall, deref, bind, pure, issue,
        statePut, uiError, ne_eq, not_false_eq_true, ↓reduceIte]
      generalize vpc.GetSnapshot config.VSIBootSnapshotID = s
      rcases s with ⟨_ | ⟨_ | ⟨_ | arch⟩, _⟩, _ | ⟨code⟩, _ | e⟩ <;>
        simp [snapshotVerdict, Effects.report, Effects.publish, goPanic] <;>
        split <;> simp_all

theorem imageBlock_eq {invalid : OptionsValidation} (config : Config) (vpcService : Option VpcV1) (k : Go StepAction) :
    imageBlock invalid config vpcService k = step (imageNameCheck config vpcService) k := by
  funext fx
  cases vpcService with
  | none => simp [imageBlock, step, imageNameCheck, vpcCall, optionsError, bind, goPanic]
  | some vpc =>
    simp only [imageBlock, step, imageNameCheck, vpcCall, deref, bind, pure, issue, statePut, uiError]
    generalize vpc.ListImages config.ImageName = l
    rcases l with ⟨_ | ⟨_ | ⟨i, is⟩⟩, _, _ | e⟩ <;>
      simp [imageVerdict, Effects.report, Effects.publish, goPanic, fmtErr]

theorem securityGroupBlock_eq {invalid : OptionsValidation} (config : Config) (vpcService : Option VpcV1) (k : Go StepAction) :
    securityGroupBlock invalid config vpcService k = step (securityGroupCheck config vpcService) k := by
  funext fx
  by_cases h : config.SecurityGroupID = ""
  · simp [securityGroupBlock, step, securityGroupCheck, h, CheckRun.skip, Effects.publish, bind, pure]
  · cases vpcService with
    | none =>
      simp [securityGroupBlock, step, securityGroupCheck, h, vpcCall, optionsError, bind, goPanic]
    | some vpc =>
      simp only [securityGroupBlock, step, securityGroupCheck, h, vpcCall, deref, bind, pure, issue,
        statePut, uiError, ne_eq, not_false_eq_true, ↓reduceIte]
      generalize vpc.GetSecurityGroup config.SecurityGroupID = g
      rcases g with ⟨_ | ⟨_ | id, _ | ⟨_ | vid⟩, _⟩, _, _ | e⟩ <;>
        simp [securityGroupVerdict, Effects.report, Effects.publish, goPanic, fmtErr] <;>
        split <;> simp_all


theorem runStep_eq_scan (invalid : OptionsValidation) (rm : ResourceManagerFactory) (state : StateBag) :
    runStep invalid rm state =
      match entries state with
      | none => Res.panic (Effects.start state)
      | some (client, config, vpcService) =>
        scan (checks invalid rm client config vpcService) (Effects.start state) := by
  unfold runStep
  rw [Run_blocks]
  simp only [readEntries, entries, bind, pure, stateGet, goPanic, StateBag.Get, Effects.start,
    regionBlock_eq, resourceGroupBlock_eq, bootVolumeBlock_eq, bootSnapshotBlock_eq,
    imageBlock_eq, securityGroupBlock_eq, checks, scan_cons]
  have hnil : (fun fx => Res.ok StepAction.ActionContinue fx) = scan [] := by
    funext fx; simp [scan]
  rcases h1 : state "client" with _ | (_ | _ | _ | _ | _ | _) <;> simp only [] <;> try rfl
  rcases h2 : state "ui" with _ | (_ | _ | _ | _ | _ | _) <;> simp only [] <;> try rfl
  rcases h3 : state "config" with _ | (_ | _ | _ | _ | _ | _) <;> simp only [] <;> try rfl
  rcases h4 : state "vpcService" with _ | (_ | _ | _ | _ | _ | _) <;> simp only [hnil] <;> try rfl

theorem runStep_of_entries {invalid : OptionsValidation} {rm : ResourceManagerFactory} {state : StateBag}
    {client : Option IBMCloudClient} {config : Config} {vpcService : Option VpcV1}
    (h : entries state = some (client, config, vpcService)) :
    runStep invalid rm state = scan (checks invalid rm client config vpcService) (Effects.start state) := by
  rw [runStep_eq_scan, h]

/-! ## Properties of the scan and of the single checks -/

theorem scan_calls_prefix (cs : List CheckRun) (fx : Effects) :
    (∃ more, (scan cs fx).effects.calls = fx.calls ++ more) := by
  induction cs generalizing fx with
  | nil => exact ⟨[], by simp [scan, Res.effects]⟩
  | cons c rest ih =>
    simp only [scan]
    split
    · rename_i p _
      obtain ⟨more, hm⟩ := ih (Effects.publish { fx with calls := fx.calls ++ c.calls } p)
      refine ⟨c.calls ++ more, ?_⟩
      rw [hm]
      cases p <;> simp [Effects.publish]
    · exact ⟨c.calls, by simp [Res.effects, Effects.report]⟩
    · exact ⟨c.calls, by simp [Res.effects]⟩

theorem scan_continue_iff (cs : List CheckRun) (fx : Effects) :
    (scan cs fx).action = some StepAction.ActionContinue ↔ ∀ c ∈ cs, c.verdict.passes = true := by
  induction cs generalizing fx with
  | nil => simp [scan, Res.action]
  | cons c rest ih =>
    simp only [scan, List.mem_cons, forall_eq_or_imp]
    split
    · rename_i p hp
      simp [ih, hp, Verdict.passes]
    · rename_i msg hp
      simp [Res.action, hp, Verdict.passes]
    · rename_i hp
      simp [Res.action, hp, Verdict.passes]

theorem regionCheck_passes {invalid : OptionsValidation} {config : Config} {vpcService : Option VpcV1}
    (h : (regionCheck invalid config vpcService).verdict.passes = true) :
    ∃ vpc, vpcService = some vpc ∧ (vpc.GetRegion config.Region).err = none ∧
      regionCheck invalid config vpcService = ⟨[Call.GetRegion config.Region], Verdict.pass none⟩ := by
  cases vpcService with
  | none =>
    by_cases hr : config.Region = "" <;> simp [regionCheck, optionsError, hr, Verdict.passes] at h
  | some vpc =>
    refine ⟨vpc, rfl, ?_⟩
    simp only [regionCheck] at h ⊢
    cases he : (vpc.GetRegion config.Region).err with
    | none => simp
    | some e => simp [he, Verdict.passes] at h

theorem resourceGroupCheck_passes {rm : ResourceManagerFactory} {client : Option IBMCloudClient}
    {config : Config} (h : (resourceGroupCheck rm client config).verdict.passes = true) :
    (resourceGroupCheck rm client config).verdict = Verdict.pass none := by
  unfold resourceGroupCheck at h ⊢
  split
  · rfl
  · split
    · simp_all [Verdict.passes]
    · split
      · simp_all [Verdict.passes]
      · simp_all [Verdict.passes]
      · simp only at h ⊢
        split <;> simp_all [Verdict.passes]

theorem volumeVerdict_passes {id : String} {v : Reply Volume}
    (h : (volumeVerdict id v).passes = true) : volumeVerdict id v = Verdict.pass none := by
  unfold volumeVerdict at h ⊢
  repeat' split
  all_goals simp_all [Verdict.passes]

theorem bootVolumeCheck_passes {config : Config} {vpcService : Option VpcV1}
    (h : (bootVolumeCheck config vpcService).verdict.passes = true) :
    (bootVolumeCheck config vpcService).verdict = Verdict.pass none := by
  by_cases hid : config.VSIBootVolumeID = ""
  · simp [bootVolumeCheck, hid, CheckRun.skip]
  · cases vpcService with
    | none => simp [bootVolumeCheck, hid, Verdict.passes] at h
    | some vpc =>
      simp only [bootVolumeCheck, hid, if_false] at h ⊢
      exact volumeVerdict_passes h

theorem snapshotVerdict_passes {id : String} {s : Reply Snapshot}
    (h : (snapshotVerdict id s).passes = true) : snapshotVerdict id s = Verdict.pass none := by
  unfold snapshotVerdict at h ⊢
  repeat' split
  all_goals simp_all [Verdict.passes]

theorem bootSnapshotCheck_passes {config : Config} {vpcService : Option VpcV1}
    (h : (bootSnapshotCheck config vpcService).verdict.passes = true) :
    (bootSnapshotCheck config vpcService).verdict = Verdict.pass none := by
  by_cases hid : config.VSIBootSnapshotID = ""
  · simp [bootSnapshotCheck, hid, CheckRun.skip]
  · cases vpcService with
    | none => simp [bootSnapshotCheck, hid, Verdict.passes] at h
    | some vpc =>
      simp only [bootSnapshotCheck, hid, if_false] at h ⊢
      exact snapshotVerdict_passes h

theorem imageVerdict_passes {name : String} {l : Reply ImageCollection}
    (h : (imageVerdict name l).passes = true) : imageVerdict name l = Verdict.pass none := by
  unfold imageVerdict at h ⊢
  repeat' split
  all_goals simp_all [Verdict.passes]

theorem imageNameCheck_passes {config : Config} {vpcService : Option VpcV1}
    (h : (imageNameCheck config vpcService).verdict.passes = true) :
    (imageNameCheck config vpcService).verdict = Verdict.pass none := by
  cases vpcService with
  | none => simp [imageNameCheck, Verdict.passes] at h
  | some vpc =>
    simp only [imageNameCheck] at h ⊢
    exact imageVerdict_passes h

theorem regionCheck_calls {invalid : OptionsValidation} (config : Config) (vpcService : Option VpcV1) :
    ∀ x ∈ (regionCheck invalid config vpcService).calls, x.check = 0 := by
  cases vpcService with
  | none =>
    by_cases hr : config.Region = "" <;> simp [regionCheck, optionsError, hr, Call.check]
  | some vpc => simp [regionCheck, Call.check]

theorem resourceGroupCheck_calls (rm : ResourceManagerFactory) (client : Option IBMCloudClient)
    (config : Config) : ∀ x ∈ (resourceGroupCheck rm client config).calls, x.check = 1 := by
  unfold resourceGroupCheck
  split
  · simp [CheckRun.skip]
  · split
    · simp
    · split <;> simp [Call.check]

theorem bootVolumeCheck_calls (config : Config) (vpcService : Option VpcV1) :
    ∀ x ∈ (bootVolumeCheck config vpcService).calls, x.check = 2 := by
  unfold bootVolumeCheck
  split
  · simp [CheckRun.skip]
  · cases vpcService <;> simp [Call.check]

theorem bootSnapshotCheck_calls (config : Config) (vpcService : Option VpcV1) :
    ∀ x ∈ (bootSnapshotCheck config vpcService).calls, x.check = 3 := by
  unfold bootSnapshotCheck
  split
  · simp [CheckRun.skip]
  · cases vpcService <;> simp [Call.check]

theorem imageNameCheck_calls (config : Config) (vpcService : Option VpcV1) :
    ∀ x ∈ (imageNameCheck config vpcService).calls, x.check = 4 := by
  cases vpcService <;> simp [imageNameCheck, Call.check]

theorem securityGroupCheck_calls (config : Config) (vpcService : Option VpcV1) :
    ∀ x ∈ (securityGroupCheck config vpcService).calls, x.check = 5 := by
  unfold securityGroupCheck
  split
  · simp [CheckRun.skip]
  · cases vpcService <;> simp [Call.check]

theorem checks_calls_position {invalid : OptionsValidation} (rm : ResourceManagerFactory) (client : Option IBMCloudClient)
    (config : Config) (vpcService : Option VpcV1) (before : List CheckRun) (c : CheckRun)
    (after : List CheckRun) (h : checks invalid rm client config vpcService = before ++ c :: after) :
    ∀ x ∈ c.calls, x.check = before.length := by
  unfold checks at h
  rcases before with _ | ⟨b1, _ | ⟨b2, _ | ⟨b3, _ | ⟨b4, _ | ⟨b5, _ | ⟨b6, bs⟩⟩⟩⟩⟩⟩ <;>
    simp only [List.nil_append, List.cons_append, List.cons.injEq, List.length_nil,
      List.length_cons] at h ⊢
  · obtain ⟨rfl, -⟩ := h; exact regionCheck_calls _ _
  · obtain ⟨-, rfl, -⟩ := h; exact resourceGroupCheck_calls _ _ _
  · obtain ⟨-, -, rfl, -⟩ := h; exact bootVolumeCheck_calls _ _
  · obtain ⟨-, -, -, rfl, -⟩ := h; exact bootSnapshotCheck_calls _ _
  · obtain ⟨-, -, -, -, rfl, -⟩ := h; exact imageNameCheck_calls _ _
  · obtain ⟨-, -, -, -, -, rfl, -⟩ := h; exact securityGroupCheck_calls _ _
  · obtain ⟨-, -, -, -, -, -, h⟩ := h; simp at h

theorem checks_pass_none {invalid : OptionsValidation} (rm : ResourceManagerFactory) (client : Option IBMCloudClient)
    (config : Config) (vpcService : Option VpcV1) (before : List CheckRun) (c : CheckRun)
    (after : List CheckRun) (h : checks invalid rm client config vpcService = before ++ c :: after)
    (hb : ∀ b ∈ before, b.verdict.passes = true) :
    ∀ b ∈ before, b.verdict = Verdict.pass none := by
  unfold checks at h
  rcases before with _ | ⟨b1, _ | ⟨b2, _ | ⟨b3, _ | ⟨b4, _ | ⟨b5, _ | ⟨b6, bs⟩⟩⟩⟩⟩⟩ <;>
    simp only [List.nil_append, List.cons_append, List.cons.injEq] at h
  · simp
  all_goals
    simp only [List.mem_cons, forall_eq_or_imp, List.not_mem_nil, false_imp_iff, implies_true,
      and_true] at hb ⊢
  · obtain ⟨rfl, -⟩ := h
    exact (regionCheck_passes hb).choose_spec.2.2 ▸ rfl
  · obtain ⟨rfl, rfl, -⟩ := h
    exact ⟨(regionCheck_passes hb.1).choose_spec.2.2 ▸ rfl, resourceGroupCheck_passes hb.2⟩
  · obtain ⟨rfl, rfl, rfl, -⟩ := h
    exact ⟨(regionCheck_passes hb.1).choose_spec.2.2 ▸ rfl, resourceGroupCheck_passes hb.2.1,
      bootVolumeCheck_passes hb.2.2⟩
  · obtain ⟨rfl, rfl, rfl, rfl, -⟩ := h
    exact ⟨(regionCheck_passes hb.1).choose_spec.2.2 ▸ rfl, resourceGroupCheck_passes hb.2.1,
      bootVolumeCheck_passes hb.2.2.1, bootSnapshotCheck_passes hb.2.2.2⟩
  · obtain ⟨rfl, rfl, rfl, rfl, rfl, -⟩ := h
    exact ⟨(regionCheck_passes hb.1).choose_spec.2.2 ▸ rfl, resourceGroupCheck_passes hb.2.1,
      bootVolumeCheck_passes hb.2.2.1, bootSnapshotCheck_passes hb.2.2.2.1,
      imageNameCheck_passes hb.2.2.2.2⟩
  · obtain ⟨-, -, -, -, -, -, h⟩ := h; simp at h

theorem scan_pass_none (before rest : List CheckRun) (fx : Effects)
    (hb : ∀ b ∈ before, b.verdict = Verdict.pass none) :
    scan (before ++ rest) fx =
      scan rest { fx with calls := fx.calls ++ before.flatMap CheckRun.calls } := by
  induction before generalizing fx with
  | nil => simp
  | cons b bs ih =>
    have h1 : b.verdict = Verdict.pass none := hb b (List.mem_cons_self _ _)
    have h2 : ∀ x ∈ bs, x.verdict = Verdict.pass none :=
      fun x hx => hb x (List.mem_cons_of_mem _ hx)
    rw [List.cons_append, scan_cons]
    simp only [step, h1, Effects.publish, ih _ h2, List.flatMap_cons, List.append_assoc]

/-! ## The order of the checks -/

/-- The step as a scan of its six checks, in the order region, resource group, boot
volume, boot snapshot, image name, security group, with the three verdicts pass, fail and
panic. For every state bag with typed entries and all answers of the services: when
every check before a check `c` passes, a failure of `c` with the error `e` makes `Run`
return `ActionHalt` with `e` stored and shown, and a panic of `c` makes `Run` panic, in
both cases after exactly the calls of the checks up to `c` and no call of a later check;
`Run` returns `ActionContinue` exactly when every check passes; and when the region
lookup on a service fails the only call is the region lookup. -/
theorem runStep_scan_of_checks (invalid : OptionsValidation) (rm : ResourceManagerFactory) (state : StateBag)
    (client : Option IBMCloudClient) (config : Config) (vpcService : Option VpcV1)
    (h : entries state = some (client, config, vpcService)) :
    (∀ (before : List CheckRun) (c : CheckRun) (after : List CheckRun),
        checks invalid rm client config vpcService = before ++ c :: after →
        (∀ b ∈ before, b.verdict.passes = true) →
        (∀ e, c.verdict = Verdict.fail e →
          runStep invalid rm state = halted state e ((before ++ [c]).flatMap CheckRun.calls)) ∧
        (c.verdict = Verdict.crash →
          runStep invalid rm state = Res.panic
            { state := state, puts := [], uiErrors := [],
              calls := (before ++ [c]).flatMap CheckRun.calls }) ∧
        (c.verdict.passes = false →
          ∀ d ∈ after, ∀ x ∈ d.calls, x ∉ (runStep invalid rm state).effects.calls)) ∧
    ((runStep invalid rm state).action = some StepAction.ActionContinue ↔
      ∀ c ∈ checks invalid rm client config vpcService, c.verdict.passes = true) ∧
    (∀ vpc e, vpcService = some vpc → (vpc.GetRegion config.Region).err = some e →
      runStep invalid rm state =
        halted state ("[ERROR] Error fetching region : " ++ config.Region ++ ": " ++ e.Error)
          [Call.GetRegion config.Region]) := by
  rw [runStep_of_entries h]
  refine ⟨?_, scan_continue_iff _ _, ?_⟩
  · intro before c after hcs hb
    have hnone := checks_pass_none rm client config vpcService before c after hcs hb
    have hrun : scan (checks invalid rm client config vpcService) (Effects.start state) =
        step c (scan after) { Effects.start state with
          calls := (Effects.start state).calls ++ before.flatMap CheckRun.calls } := by
      rw [hcs, scan_pass_none before (c :: after) _ hnone, scan_cons]
    have hcalls : ∀ r : Res StepAction, r.effects.calls = (before ++ [c]).flatMap CheckRun.calls →
        ∀ d ∈ after, ∀ x ∈ d.calls, x ∉ r.effects.calls := by
      intro r hr d hd x hx hmem
      obtain ⟨a1, a2, rfl⟩ := List.append_of_mem hd
      have hpos : x.check = (before ++ c :: a1).length :=
        checks_calls_position rm client config vpcService (before ++ c :: a1) d a2
          (by simpa using hcs) x hx
      rw [hr, List.mem_flatMap] at hmem
      obtain ⟨b, hbmem, hxb⟩ := hmem
      have hb' : b ∈ before ++ [c] := hbmem
      obtain ⟨p1, p2, hp⟩ := List.append_of_mem hb'
      have hpos2 : x.check = p1.length :=
        checks_calls_position rm client config vpcService p1 b (p2 ++ a1 ++ d :: a2) (by
          rw [hcs]
          have : before ++ c :: (a1 ++ d :: a2) = (before ++ [c]) ++ (a1 ++ d :: a2) := by simp
          rw [this, hp]; simp) x hxb
      have hlen : (before ++ [c]).length = (p1 ++ b :: p2).length := by rw [hp]
      simp only [List.length_append, List.length_cons, List.length_nil] at hlen hpos
      omega
    refine ⟨?_, ?_, ?_⟩
    · intro e he
      rw [hrun]
      simp [step, he, halted, Effects.report, Effects.start]
    · intro he
      rw [hrun]
      simp [step, he, Effects.start]
    · intro hp
      rw [hrun]
      apply hcalls
      cases hv : c.verdict with
      | pass p => simp [hv, Verdict.passes] at hp
      | fail msg => simp [step, hv, Res.effects, Effects.report, Effects.start]
      | crash => simp [step, hv, Res.effects, Effects.start]
  · intro vpc e hv he
    subst hv
    simp [checks, scan, regionCheck, he, halted, Effects.report, Effects.start]

/-! ## The resource group check -/

theorem scan_calls_mem (cs : List CheckRun) (fx : Effects) :
    ∀ x ∈ (scan cs fx).effects.calls, x ∈ fx.calls ∨ ∃ c ∈ cs, x ∈ c.calls := by
  induction cs generalizing fx with
  | nil => intro x hx; left; simpa [scan, Res.effects] using hx
  | cons c rest ih =>
    intro x hx
    simp only [scan] at hx
    split at hx
    · rename_i p _
      rcases ih _ x hx with h | ⟨d, hd, hxd⟩
      · have h' : x ∈ fx.calls ++ c.calls := by cases p <;> simpa [Effects.publish] using h
        rcases List.mem_append.1 h' with h1 | h1
        · exact Or.inl h1
        · exact Or.inr ⟨c, List.mem_cons_self _ _, h1⟩
      · exact Or.inr ⟨d, List.mem_cons_of_mem _ hd, hxd⟩
    · have h' : x ∈ fx.calls ++ c.calls := by simpa [Res.effects, Effects.report] using hx
      rcases List.mem_append.1 h' with h1 | h1
      · exact Or.inl h1
      · exact Or.inr ⟨c, List.mem_cons_self _ _, h1⟩
    · have h' : x ∈ fx.calls ++ c.calls := by simpa [Res.effects] using hx
      rcases List.mem_append.1 h' with h1 | h1
      · exact Or.inl h1
      · exact Or.inr ⟨c, List.mem_cons_self _ _, h1⟩

theorem contains_mid (a v b : String) : Contains (a ++ v ++ b) v := ⟨a, b, rfl⟩

theorem contains_mid2 (a v b c : String) : Contains (a ++ v ++ b ++ c) v :=
  ⟨a, b ++ c, by simp [String.append_assoc]⟩

theorem contains_end (a v : String) : Contains (a ++ v) v := ⟨a, "", by simp⟩

/-- C2: with a resource group ID, after a region check that passed and a resource
manager client that was constructed, a lookup error and a lookup that yields no group
and no error both make `Run` return `ActionHalt` with a resource group error stored under
`error` whose text contains the configured ID; with an empty resource group ID neither
the client construction nor the lookup is issued. -/
theorem Run_resource_group_check (invalid : OptionsValidation) (rm : ResourceManagerFactory) (state : StateBag)
    (client : Option IBMCloudClient) (config : Config) (vpcService : Option VpcV1)
    (h : entries state = some (client, config, vpcService)) :
    (∀ (c : IBMCloudClient) (vpc : VpcV1) (sc : ResourceManagerV2),
        config.ResourceGroupID ≠ "" →
        vpcService = some vpc → (vpc.GetRegion config.Region).err = none →
        client = some c → rm c.IBMApiKey config.IAMEndpoint = (some sc, none) →
        (∀ e, (sc.GetResourceGroup config.ResourceGroupID).err = some e →
          runStep invalid rm state =
            halted state
              ("[ERROR] Error fetching resource group : " ++ config.ResourceGroupID ++ ": "
                ++ e.Error)
              [Call.GetRegion config.Region,
               Call.NewResourceManagerV2UsingExternalConfig c.IBMApiKey config.IAMEndpoint,
               Call.GetResourceGroup config.ResourceGroupID] ∧
          Contains
            ("[ERROR] Error fetching resource group : " ++ config.ResourceGroupID ++ ": "
              ++ e.Error)
            config.ResourceGroupID) ∧
        ((sc.GetResourceGroup config.ResourceGroupID).err = none →
          (sc.GetResourceGroup config.ResourceGroupID).result = none →
          runStep invalid rm state =
            halted state
              ("[ERROR] Resource group not found resource_group_id : "
                ++ config.ResourceGroupID ++ ": " ++ "%!s(<nil>)")
              [Call.GetRegion config.Region,
               Call.NewResourceManagerV2UsingExternalConfig c.IBMApiKey config.IAMEndpoint,
               Call.GetResourceGroup config.ResourceGroupID] ∧
          Contains
            ("[ERROR] Resource group not found resource_group_id : "
              ++ config.ResourceGroupID ++ ": " ++ "%!s(<nil>)")
            config.ResourceGroupID)) ∧
    (config.ResourceGroupID = "" →
      ∀ x ∈ (runStep invalid rm state).effects.calls,
        (∀ id, x ≠ Call.GetResourceGroup id) ∧
        (∀ apiKey url, x ≠ Call.NewResourceManagerV2UsingExternalConfig apiKey url)) := by
  rw [runStep_of_entries h]
  refine ⟨?_, ?_⟩
  · intro c vpc sc hid hv hr hc hrm
    subst hv hc
    refine ⟨?_, ?_⟩
    · intro e he
      refine ⟨?_, contains_mid2 _ _ _ _⟩
      simp [checks, scan, regionCheck, resourceGroupCheck, hr, hid, hrm, he, halted,
        Effects.report, Effects.publish, Effects.start]
    · intro he hres
      refine ⟨?_, contains_mid2 _ _ _ _⟩
      simp [checks, scan, regionCheck, resourceGroupCheck, hr, hid, hrm, he, hres, halted,
        Effects.report, Effects.publish, Effects.start]
  · intro hid x hx
    have hx1 : x.check ≠ 1 := by
      rcases scan_calls_mem _ _ x hx with h0 | ⟨d, hd, hxd⟩
      · simp [Effects.start] at h0
      · simp only [checks, List.mem_cons, List.mem_singleton, List.not_mem_nil, or_false] at hd
        rcases hd with rfl | rfl | rfl | rfl | rfl | rfl
        · rw [regionCheck_calls _ _ x hxd]; decide
        · simp [resourceGroupCheck, hid, CheckRun.skip] at hxd
        · rw [bootVolumeCheck_calls _ _ x hxd]; decide
        · rw [bootSnapshotCheck_calls _ _ x hxd]; decide
        · rw [imageNameCheck_calls _ _ x hxd]; decide
        · rw [securityGroupCheck_calls _ _ x hxd]; decide
    refine ⟨?_, ?_⟩
    · rintro id rfl; exact hx1 rfl
    · rintro k u rfl; exact hx1 rfl

/-! ## The boot volume, boot snapshot and image name checks -/

theorem runStep_reach {invalid : OptionsValidation} {rm : ResourceManagerFactory} {state : StateBag}
    {client : Option IBMCloudClient} {config : Config} {vpcService : Option VpcV1}
    (h : entries state = some (client, config, vpcService))
    (before : List CheckRun) (c : CheckRun) (after : List CheckRun)
    (hcs : checks invalid rm client config vpcService = before ++ c :: after)
    (hb : ∀ b ∈ before, b.verdict.passes = true) :
    runStep invalid rm state =
      step c (scan after) ⟨state, [], [], before.flatMap CheckRun.calls⟩ := by
  have hnone := checks_pass_none rm client config vpcService before c after hcs hb
  rw [runStep_of_entries h, hcs, scan_pass_none before (c :: after) _ hnone, scan_cons]
  simp [Effects.start]

theorem scan_cons_calls (c : CheckRun) (rest : List CheckRun) (fx : Effects) :
    ∃ more, (scan (c :: rest) fx).effects.calls = fx.calls ++ c.calls ++ more := by
  simp only [scan]
  split
  · rename_i p _
    obtain ⟨more, hm⟩ := scan_calls_prefix rest
      (Effects.publish { fx with calls := fx.calls ++ c.calls } p)
    refine ⟨more, ?_⟩
    rw [hm]
    cases p <;> simp [Effects.publish]
  · exact ⟨[], by simp [Res.effects, Effects.report]⟩
  · exact ⟨[], by simp [Res.effects]⟩

theorem scan_image_onwards (config : Config) (vpc : VpcV1) (rest : List CheckRun)
    (fx : Effects) :
    ∃ later, (scan (imageNameCheck config (some vpc) :: rest) fx).effects.calls =
      fx.calls ++ Call.ListImages config.ImageName :: later := by
  obtain ⟨more, hm⟩ := scan_cons_calls (imageNameCheck config (some vpc)) rest fx
  exact ⟨more, by rw [hm]; simp [imageNameCheck]⟩

theorem scan_snapshot_onwards (config : Config) (vpc : VpcV1) (rest : List CheckRun)
    (fx : Effects) :
    ∃ next later,
      (scan (bootSnapshotCheck config (some vpc) :: imageNameCheck config (some vpc) :: rest)
        fx).effects.calls = fx.calls ++ next :: later := by
  by_cases hid : config.VSIBootSnapshotID = ""
  · obtain ⟨later, hl⟩ := scan_image_onwards config vpc rest
      { fx with calls := fx.calls ++ [] }
    refine ⟨Call.ListImages config.ImageName, later, ?_⟩
    rw [scan_cons]
    simp only [step, bootSnapshotCheck, hid, if_true, CheckRun.skip, Effects.publish]
    rw [hl]
    simp
  · obtain ⟨more, hm⟩ := scan_cons_calls (bootSnapshotCheck config (some vpc))
      (imageNameCheck config (some vpc) :: rest) fx
    exact ⟨Call.GetSnapshot config.VSIBootSnapshotID, more, by
      rw [hm]; simp [bootSnapshotCheck, hid]⟩

theorem not_goesOn_of_stop (r : Res StepAction) (pre : List Call) (g : Call)
    (hr : r.effects.calls = pre ++ [g]) (hg : g ∉ pre) : ¬ GoesOnAfter g r := by
  rintro ⟨before, next, later, hcalls⟩
  rw [hr] at hcalls
  rcases List.append_eq_append_iff.1 hcalls with ⟨a, _, h2⟩ | ⟨c, h1, h2⟩
  · have := congrArg List.length h2
    simp at this
    omega
  · cases c with
    | nil => simp at h2
    | cons x c =>
      simp only [List.cons_append, List.cons.injEq] at h2
      apply hg
      rw [h1, ← h2.1]
      simp

theorem goesOn_of_more (r : Res StepAction) (pre : List Call) (g next : Call)
    (later : List Call) (hr : r.effects.calls = pre ++ [g] ++ next :: later) :
    GoesOnAfter g r :=
  ⟨pre, next, later, by rw [hr]; simp⟩

theorem volumeVerdict_passes_iff (id : String) (v : Reply Volume) :
    (volumeVerdict id v).passes = true ↔
      v.err = none ∧ ∃ vol arch, v.result = some vol ∧
        vol.OperatingSystem = some ⟨some arch⟩ ∧
        (vol.AttachmentState = none ∨ vol.AttachmentState = some "unattached") := by
  rcases v with ⟨_ | ⟨_ | ⟨_ | arch⟩, _ | att, other⟩, _ | ⟨code⟩, _ | e⟩ <;>
    simp only [volumeVerdict] <;> (try split_ifs) <;> simp_all [Verdict.passes]

theorem goesOn_iff_passes {invalid : OptionsValidation} {rm : ResourceManagerFactory} {state : StateBag}
    {client : Option IBMCloudClient} {config : Config} {vpc : VpcV1}
    (h : entries state = some (client, config, some vpc))
    (before : List CheckRun) (c : CheckRun) (g : Call) (after : List CheckRun)
    (hcs : checks invalid rm client config (some vpc) = before ++ c :: after)
    (hb : ∀ b ∈ before, b.verdict.passes = true)
    (hc : c.calls = [g])
    (hpub : ∀ p, c.verdict = Verdict.pass p → p = none)
    (hafter : ∀ fx, ∃ next later, (scan after fx).effects.calls = fx.calls ++ next :: later) :
    GoesOnAfter g (runStep invalid rm state) ↔ c.verdict.passes = true := by
  have hrun := runStep_reach h before c after hcs hb
  have hg : g ∉ before.flatMap CheckRun.calls := by
    intro hmem
    rw [List.mem_flatMap] at hmem
    obtain ⟨b, hbmem, hgb⟩ := hmem
    obtain ⟨p1, p2, rfl⟩ := List.append_of_mem hbmem
    have h1 : g.check = p1.length :=
      checks_calls_position rm client config (some vpc) p1 b (p2 ++ c :: after)
        (by rw [hcs]; simp) g hgb
    have h2 : g.check = (p1 ++ b :: p2).length :=
      checks_calls_position rm client config (some vpc) (p1 ++ b :: p2) c after hcs g
        (by rw [hc]; simp)
    simp at h2
    omega
  cases hv : c.verdict with
  | pass p =>
    have hp := hpub p hv
    subst hp
    simp only [Verdict.passes, iff_true]
    obtain ⟨next, later, hl⟩ := hafter (Effects.publish
      { state := state, puts := [], uiErrors := [],
        calls := before.flatMap CheckRun.calls ++ c.calls } none)
    apply goesOn_of_more _ (before.flatMap CheckRun.calls) g next later
    rw [hrun]
    simp only [step, hv]
    rw [hl]
    simp [Effects.publish, hc]
  | fail msg =>
    simp only [Verdict.passes, iff_false, Bool.false_eq_true]
    apply not_goesOn_of_stop _ (before.flatMap CheckRun.calls) g _ hg
    rw [hrun]
    simp [step, hv, Res.effects, Effects.report, hc]
  | crash =>
    simp only [Verdict.passes, iff_false, Bool.false_eq_true]
    apply not_goesOn_of_stop _ (before.flatMap CheckRun.calls) g _ hg
    rw [hrun]
    simp [step, hv, Res.effects, hc]

/-- C3: with a boot volume ID, once the region and resource group checks have passed, the
volume check is decided by the answer to `GetVolume`, in this order: an error with a 404
response halts with the not-found error; any other error, also one without a response,
halts with the fetch error; a volume without operating system or without architecture
halts with the not-bootable error; a volume with both and an attachment state other than
`unattached` halts with the already-attached error. Each of the four texts contains the
volume ID. `Run` goes on to a further request after `GetVolume` exactly when the volume
is found, has operating system and architecture, and has no attachment state or the
state `unattached`. -/
theorem Run_boot_volume_check (invalid : OptionsValidation) (rm : ResourceManagerFactory) (state : StateBag)
    (client : Option IBMCloudClient) (config : Config) (vpcService : Option VpcV1)
    (h : entries state = some (client, config, vpcService))
    (hid : config.VSIBootVolumeID ≠ "")
    (hregion : (regionCheck invalid config vpcService).verdict.passes = true)
    (hrg : (resourceGroupCheck rm client config).verdict.passes = true) :
    ∃ vpc, vpcService = some vpc ∧
      (∀ e resp, (vpc.GetVolume config.VSIBootVolumeID).err = some e →
        (vpc.GetVolume config.VSIBootVolumeID).response = some resp → resp.StatusCode = 404 →
        runStep invalid rm state =
          halted state ("[ERROR] Boot volume provided is not found " ++ config.VSIBootVolumeID ++ ":")
            ((regionCheck invalid config vpcService).calls ++ (resourceGroupCheck rm client config).calls
              ++ [Call.GetVolume config.VSIBootVolumeID])) ∧
      (∀ e, (vpc.GetVolume config.VSIBootVolumeID).err = some e →
        (∀ resp, (vpc.GetVolume config.VSIBootVolumeID).response = some resp →
          resp.StatusCode ≠ 404) →
        runStep invalid rm state =
          halted state ("[ERROR] Error fetching volume " ++ config.VSIBootVolumeID)
            ((regionCheck invalid config vpcService).calls ++ (resourceGroupCheck rm client config).calls
              ++ [Call.GetVolume config.VSIBootVolumeID])) ∧
      (∀ vol, (vpc.GetVolume config.VSIBootVolumeID).err = none →
        (vpc.GetVolume config.VSIBootVolumeID).result = some vol →
        (vol.OperatingSystem = none ∨
          ∃ os, vol.OperatingSystem = some os ∧ os.Architecture = none) →
        runStep invalid rm state =
          halted state ("[ERROR] Provided volume " ++ config.VSIBootVolumeID
              ++ " is not a bootable volume. Please provide an unattached bootable volume")
            ((regionCheck invalid config vpcService).calls ++ (resourceGroupCheck rm client config).calls
              ++ [Call.GetVolume config.VSIBootVolumeID])) ∧
      (∀ vol arch st, (vpc.GetVolume config.VSIBootVolumeID).err = none →
        (vpc.GetVolume config.VSIBootVolumeID).result = some vol →
        vol.OperatingSystem = some ⟨some arch⟩ →
        vol.AttachmentState = some st → st ≠ "unattached" →
        runStep invalid rm state =
          halted state ("[ERROR] Provided volume " ++ config.VSIBootVolumeID
              ++ " is either already attached or unusuble. Please provide an unattached bootable volume")
            ((regionCheck invalid config vpcService).calls ++ (resourceGroupCheck rm client config).calls
              ++ [Call.GetVolume config.VSIBootVolumeID])) ∧
      Contains ("[ERROR] Boot volume provided is not found " ++ config.VSIBootVolumeID ++ ":")
        config.VSIBootVolumeID ∧
      Contains ("[ERROR] Error fetching volume " ++ config.VSIBootVolumeID)
        config.VSIBootVolumeID ∧
      Contains ("[ERROR] Provided volume " ++ config.VSIBootVolumeID
          ++ " is not a bootable volume. Please provide an unattached bootable volume")
        config.VSIBootVolumeID ∧
      Contains ("[ERROR] Provided volume " ++ config.VSIBootVolumeID
          ++ " is either already attached or unusuble. Please provide an unattached bootable volume")
        config.VSIBootVolumeID ∧
      (GoesOnAfter (Call.GetVolume config.VSIBootVolumeID) (runStep invalid rm state) ↔
        (vpc.GetVolume config.VSIBootVolumeID).err = none ∧
        ∃ vol arch, (vpc.GetVolume config.VSIBootVolumeID).result = some vol ∧
          vol.OperatingSystem = some ⟨some arch⟩ ∧
          (vol.AttachmentState = none ∨ vol.AttachmentState = some "unattached")) := by
  obtain ⟨vpc, rfl, -, -⟩ := regionCheck_passes hregion
  have hb : ∀ b ∈ [regionCheck invalid config (some vpc), resourceGroupCheck rm client config],
      b.verdict.passes = true := by
    simp [hregion, hrg]
  have hrun := runStep_reach h [regionCheck invalid config (some vpc), resourceGroupCheck rm client config]
    (bootVolumeCheck config (some vpc))
    [bootSnapshotCheck config (some vpc), imageNameCheck config (some vpc),
      securityGroupCheck config (some vpc)] rfl hb
  have hcalls : [regionCheck invalid config (some vpc), resourceGroupCheck rm client config].flatMap
      CheckRun.calls = (regionCheck invalid config (some vpc)).calls
        ++ (resourceGroupCheck rm client config).calls := by simp
  rw [hcalls] at hrun
  refine ⟨vpc, rfl, ?_, ?_, ?_, ?_, contains_mid _ _ _, contains_end _ _, contains_mid _ _ _,
    contains_mid _ _ _, ?_⟩
  · intro e resp he hresp hcode
    rw [hrun]
    simp [step, bootVolumeCheck, hid, volumeVerdict, he, hresp, hcode, halted, Effects.report]
  · intro e he hresp
    rw [hrun]
    cases hr : (vpc.GetVolume config.VSIBootVolumeID).response with
    | none => simp [step, bootVolumeCheck, hid, volumeVerdict, he, hr, halted, Effects.report]
    | some resp =>
      simp [step, bootVolumeCheck, hid, volumeVerdict, he, hr, hresp resp hr, halted,
        Effects.report]
  · intro vol he hres hos
    rw [hrun]
    rcases hos with hos | ⟨⟨arch⟩, hos, harch⟩
    · simp [step, bootVolumeCheck, hid, volumeVerdict, he, hres, hos, halted, Effects.report]
    · simp only at harch
      subst harch
      simp [step, bootVolumeCheck, hid, volumeVerdict, he, hres, hos, halted, Effects.report]
  · intro vol arch st he hres hos hatt hst
    rw [hrun]
    simp [step, bootVolumeCheck, hid, volumeVerdict, he, hres, hos, hatt, hst, halted,
      Effects.report]
  · rw [goesOn_iff_passes h [regionCheck invalid config (some vpc), resourceGroupCheck rm client config]
      (bootVolumeCheck config (some vpc)) (Call.GetVolume config.VSIBootVolumeID)
      [bootSnapshotCheck config (some vpc), imageNameCheck config (some vpc),
        securityGroupCheck config (some vpc)] rfl hb (by simp [bootVolumeCheck, hid])
      (fun p hp => by
        have := @bootVolumeCheck_passes config (some vpc)
          (by rw [hp]; rfl)
        rw [hp] at this
        simpa using this)
      (fun fx => scan_snapshot_onwards config vpc _ fx)]
    simp only [bootVolumeCheck, hid, if_false]
    exact volumeVerdict_passes_iff _ _

theorem snapshotVerdict_passes_iff (id : String) (s : Reply Snapshot) :
    (snapshotVerdict id s).passes = true ↔
      s.err = none ∧ ∃ snap arch, s.result = some snap ∧
        snap.OperatingSystem = some ⟨some arch⟩ := by
  rcases s with ⟨_ | ⟨_ | ⟨_ | arch⟩, other⟩, _ | ⟨code⟩, _ | e⟩ <;>
    simp only [snapshotVerdict] <;> (try split_ifs) <;> simp_all [Verdict.passes]

/-- C4: with a boot snapshot ID, once the region, resource group and boot volume checks
have passed (the last one with or without a boot volume ID), `GetSnapshot` is issued and
decides the check: an error with a 404 response halts with the snapshot-not-found error,
any other error halts with the fetch error, and a found snapshot halts as not bootable
when its operating system or architecture is absent; a found snapshot makes `Run` stop at
this check exactly in that case, whatever its other attributes are. -/
theorem Run_boot_snapshot_check (invalid : OptionsValidation) (rm : ResourceManagerFactory) (state : StateBag)
    (client : Option IBMCloudClient) (config : Config) (vpcService : Option VpcV1)
    (h : entries state = some (client, config, vpcService))
    (hid : config.VSIBootSnapshotID ≠ "")
    (hregion : (regionCheck invalid config vpcService).verdict.passes = true)
    (hrg : (resourceGroupCheck rm client config).verdict.passes = true)
    (hvol : (bootVolumeCheck config vpcService).verdict.passes = true) :
    ∃ vpc, vpcService = some vpc ∧
      Call.GetSnapshot config.VSIBootSnapshotID ∈ (runStep invalid rm state).effects.calls ∧
      (∀ e resp, (vpc.GetSnapshot config.VSIBootSnapshotID).err = some e →
        (vpc.GetSnapshot config.VSIBootSnapshotID).response = some resp →
        resp.StatusCode = 404 →
        runStep invalid rm state =
          halted state
            ("[ERROR] Boot snapahot provided is not found " ++ config.VSIBootSnapshotID ++ ":")
            ((regionCheck invalid config vpcService).calls ++ (resourceGroupCheck rm client config).calls
              ++ (bootVolumeCheck config vpcService).calls
              ++ [Call.GetSnapshot config.VSIBootSnapshotID])) ∧
      (∀ e, (vpc.GetSnapshot config.VSIBootSnapshotID).err = some e →
        (∀ resp, (vpc.GetSnapshot config.VSIBootSnapshotID).response = some resp →
          resp.StatusCode ≠ 404) →
        runStep invalid rm state =
          halted state ("[ERROR] Error fetching snapshot " ++ config.VSIBootSnapshotID)
            ((regionCheck invalid config vpcService).calls ++ (resourceGroupCheck rm client config).calls
              ++ (bootVolumeCheck config vpcService).calls
              ++ [Call.GetSnapshot config.VSIBootSnapshotID])) ∧
      (∀ snap, (vpc.GetSnapshot config.VSIBootSnapshotID).err = none →
        (vpc.GetSnapshot config.VSIBootSnapshotID).result = some snap →
        ((snap.OperatingSystem = none ∨
            ∃ os, snap.OperatingSystem = some os ∧ os.Architecture = none) →
          runStep invalid rm state =
            halted state ("[ERROR] Provided snapshot " ++ config.VSIBootSnapshotID
                ++ " is not a bootable snapshot. Please provide an unattached bootable snapshot")
              ((regionCheck invalid config vpcService).calls
                ++ (resourceGroupCheck rm client config).calls
                ++ (bootVolumeCheck config vpcService).calls
                ++ [Call.GetSnapshot config.VSIBootSnapshotID])) ∧
        (¬ GoesOnAfter (Call.GetSnapshot config.VSIBootSnapshotID) (runStep invalid rm state) ↔
          (snap.OperatingSystem = none ∨
            ∃ os, snap.OperatingSystem = some os ∧ os.Architecture = none))) := by
  obtain ⟨vpc, rfl, -, -⟩ := regionCheck_passes hregion
  have hb : ∀ b ∈ [regionCheck invalid config (some vpc), resourceGroupCheck rm client config,
      bootVolumeCheck config (some vpc)], b.verdict.passes = true := by
    simp [hregion, hrg, hvol]
  have hrun := runStep_reach h [regionCheck invalid config (some vpc), resourceGroupCheck rm client config,
      bootVolumeCheck config (some vpc)]
    (bootSnapshotCheck config (some vpc))
    [imageNameCheck config (some vpc), securityGroupCheck config (some vpc)] rfl hb
  have hcalls : [regionCheck invalid config (some vpc), resourceGroupCheck rm client config,
      bootVolumeCheck config (some vpc)].flatMap CheckRun.calls =
        (regionCheck invalid config (some vpc)).calls ++ (resourceGroupCheck rm client config).calls
          ++ (bootVolumeCheck config (some vpc)).calls := by simp
  rw [hcalls] at hrun
  have hgo := goesOn_iff_passes h [regionCheck invalid config (some vpc),
      resourceGroupCheck rm client config, bootVolumeCheck config (some vpc)]
      (bootSnapshotCheck config (some vpc)) (Call.GetSnapshot config.VSIBootSnapshotID)
      [imageNameCheck config (some vpc), securityGroupCheck config (some vpc)] rfl hb
      (by simp [bootSnapshotCheck, hid])
      (fun p hp => by
        have := @bootSnapshotCheck_passes config (some vpc)
          (by rw [hp]; rfl)
        rw [hp] at this
        simpa using this)
      (fun fx => by
        obtain ⟨later, hl⟩ := scan_image_onwards config vpc
          [securityGroupCheck config (some vpc)] fx
        exact ⟨_, later, hl⟩)
  refine ⟨vpc, rfl, ?_, ?_, ?_, ?_⟩
  · rw [hrun]
    obtain ⟨more, hm⟩ := scan_calls_prefix
      [imageNameCheck config (some vpc), securityGroupCheck config (some vpc)]
      (Effects.publish
        { state := state, puts := [], uiErrors := [],
          calls := (regionCheck invalid config (some vpc)).calls
            ++ (resourceGroupCheck rm client config).calls
            ++ (bootVolumeCheck config (some vpc)).calls
            ++ (bootSnapshotCheck config (some vpc)).calls } none)
    have hsc : (bootSnapshotCheck config (some vpc)).calls =
        [Call.GetSnapshot config.VSIBootSnapshotID] := by simp [bootSnapshotCheck, hid]
    cases hv : (bootSnapshotCheck config (some vpc)).verdict with
    | pass p =>
      have hp : p = none := by
        have := @bootSnapshotCheck_passes config (some vpc)
          (by rw [hv]; rfl)
        rw [hv] at this
        simpa using this
      subst hp
      simp only [step, hv]
      rw [hm]
      simp [Effects.publish, hsc]
    | fail msg => simp [step, hv, Res.effects, Effects.report, hsc]
    | crash => simp [step, hv, Res.effects, hsc]
  · intro e resp he hresp hcode
    rw [hrun]
    simp [step, bootSnapshotCheck, hid, snapshotVerdict, he, hresp, hcode, halted, Effects.report]
  · intro e he hresp
    rw [hrun]
    cases hr : (vpc.GetSnapshot config.VSIBootSnapshotID).response with
    | none => simp [step, bootSnapshotCheck, hid, snapshotVerdict, he, hr, halted, Effects.report]
    | some resp =>
      simp [step, bootSnapshotCheck, hid, snapshotVerdict, he, hr, hresp resp hr, halted,
        Effects.report]
  · intro snap he hres
    refine ⟨?_, ?_⟩
    · intro hos
      rw [hrun]
      rcases hos with hos | ⟨⟨arch⟩, hos, harch⟩
      · simp [step, bootSnapshotCheck, hid, snapshotVerdict, he, hres, hos, halted,
          Effects.report]
      · simp only at harch
        subst harch
        simp [step, bootSnapshotCheck, hid, snapshotVerdict, he, hres, hos, halted,
          Effects.report]
    · rw [hgo]
      simp only [bootSnapshotCheck, hid, if_false]
      rw [snapshotVerdict_passes_iff]
      rcases snap with ⟨_ | ⟨_ | arch⟩, other⟩ <;> simp_all

/-- C5: whenever the region, resource group, boot volume and boot snapshot checks have
passed, whatever the optional fields are, `ListImages` is issued with the configured
image name. If it answers with one or more images, `Run` returns `ActionHalt` and the
`error` entry holds the collision error, whose text contains the image name. If it
answers with no image, the check passes: without a security group ID `Run` returns
`ActionContinue`, with one it goes on to the security group lookup. -/
theorem Run_image_name_check (invalid : OptionsValidation) (rm : ResourceManagerFactory) (state : StateBag)
    (client : Option IBMCloudClient) (config : Config) (vpcService : Option VpcV1)
    (h : entries state = some (client, config, vpcService))
    (hregion : (regionCheck invalid config vpcService).verdict.passes = true)
    (hrg : (resourceGroupCheck rm client config).verdict.passes = true)
    (hvol : (bootVolumeCheck config vpcService).verdict.passes = true)
    (hsnap : (bootSnapshotCheck config vpcService).verdict.passes = true) :
    ∃ vpc, vpcService = some vpc ∧
      Call.ListImages config.ImageName ∈ (runStep invalid rm state).effects.calls ∧
      (∀ coll, (vpc.ListImages config.ImageName).err = none →
        (vpc.ListImages config.ImageName).result = some coll → coll.Images ≠ [] →
        runStep invalid rm state =
          halted state ("[ERROR] An Image exist with the same name " ++ config.ImageName ++ ":")
            ((regionCheck invalid config vpcService).calls ++ (resourceGroupCheck rm client config).calls
              ++ (bootVolumeCheck config vpcService).calls
              ++ (bootSnapshotCheck config vpcService).calls
              ++ [Call.ListImages config.ImageName]) ∧
        (runStep invalid rm state).effects.state.Get "error" = some (Value.error
          ⟨"[ERROR] An Image exist with the same name " ++ config.ImageName ++ ":"⟩) ∧
        Contains ("[ERROR] An Image exist with the same name " ++ config.ImageName ++ ":")
          config.ImageName) ∧
      (∀ coll, (vpc.ListImages config.ImageName).err = none →
        (vpc.ListImages config.ImageName).result = some coll → coll.Images = [] →
        (config.SecurityGroupID = "" →
          runStep invalid rm state = Res.ok StepAction.ActionContinue
            { state := state, puts := [], uiErrors := [],
              calls := (regionCheck invalid config vpcService).calls
                ++ (resourceGroupCheck rm client config).calls
                ++ (bootVolumeCheck config vpcService).calls
                ++ (bootSnapshotCheck config vpcService).calls
                ++ [Call.ListImages config.ImageName] }) ∧
        (config.SecurityGroupID ≠ "" →
          Call.GetSecurityGroup config.SecurityGroupID ∈ (runStep invalid rm state).effects.calls)) := by
  obtain ⟨vpc, rfl, -, -⟩ := regionCheck_passes hregion
  have hb : ∀ b ∈ [regionCheck invalid config (some vpc), resourceGroupCheck rm client config,
      bootVolumeCheck config (some vpc), bootSnapshotCheck config (some vpc)],
      b.verdict.passes = true := by
    simp [hregion, hrg, hvol, hsnap]
  have hrun := runStep_reach h [regionCheck invalid config (some vpc), resourceGroupCheck rm client config,
      bootVolumeCheck config (some vpc), bootSnapshotCheck config (some vpc)]
    (imageNameCheck config (some vpc)) [securityGroupCheck config (some vpc)] rfl hb
  have hcalls : [regionCheck invalid config (some vpc), resourceGroupCheck rm client config,
      bootVolumeCheck config (some vpc), bootSnapshotCheck config (some vpc)].flatMap
        CheckRun.calls =
        (regionCheck invalid config (some vpc)).calls ++ (resourceGroupCheck rm client config).calls
          ++ (bootVolumeCheck config (some vpc)).calls
          ++ (bootSnapshotCheck config (some vpc)).calls := by simp
  rw [hcalls] at hrun
  refine ⟨vpc, rfl, ?_, ?_, ?_⟩
  · rw [← scan_cons] at hrun
    obtain ⟨later, hl⟩ := scan_image_onwards config vpc [securityGroupCheck config (some vpc)]
      { state := state, puts := [], uiErrors := [],
        calls := (regionCheck invalid config (some vpc)).calls
          ++ (resourceGroupCheck rm client config).calls
          ++ (bootVolumeCheck config (some vpc)).calls
          ++ (bootSnapshotCheck config (some vpc)).calls }
    rw [hrun, hl]
    simp
  · intro coll he hres himg
    have hrun2 : runStep invalid rm state =
        halted state ("[ERROR] An Image exist with the same name " ++ config.ImageName ++ ":")
          ((regionCheck invalid config (some vpc)).calls ++ (resourceGroupCheck rm client config).calls
            ++ (bootVolumeCheck config (some vpc)).calls
            ++ (bootSnapshotCheck config (some vpc)).calls
            ++ [Call.ListImages config.ImageName]) := by
      rw [hrun]
      rcases coll with ⟨_ | ⟨i, is⟩⟩
      · exact absurd rfl himg
      · simp [step, imageNameCheck, imageVerdict, he, hres, halted, Effects.report]
    refine ⟨hrun2, ?_, contains_mid _ _ _⟩
    rw [hrun2]
    simp [halted, Res.effects, StateBag.Get, StateBag.Put]
  · intro coll he hres himg
    have hpass : (imageNameCheck config (some vpc)).verdict = Verdict.pass none := by
      rcases coll with ⟨_ | ⟨i, is⟩⟩
      · simp [imageNameCheck, imageVerdict, he, hres]
      · simp at himg
    refine ⟨?_, ?_⟩
    · intro hsg
      have hic : (imageNameCheck config (some vpc)).calls = [Call.ListImages config.ImageName] := by
        simp [imageNameCheck]
      rw [hrun]
      simp only [step, hpass]
      simp [Effects.publish, scan, securityGroupCheck, hsg, CheckRun.skip, hic]
    · intro hsg
      rw [hrun]
      simp only [step, hpass]
      obtain ⟨more, hm⟩ := scan_cons_calls (securityGroupCheck config (some vpc)) []
        (Effects.publish
          { state := state, puts := [], uiErrors := [],
            calls := (regionCheck invalid config (some vpc)).calls
              ++ (resourceGroupCheck rm client config).calls
              ++ (bootVolumeCheck config (some vpc)).calls
              ++ (bootSnapshotCheck config (some vpc)).calls
              ++ (imageNameCheck config (some vpc)).calls } none)
      rw [hm]
      simp [securityGroupCheck, hsg]

/-! ## The outcomes of the step and the error contract -/

theorem marked_append {a : String} (b : String) (h : MarkedError a) : MarkedError (a ++ b) := by
  obtain ⟨rest, rfl⟩ := h
  exact ⟨rest ++ b, by simp [String.append_assoc]⟩

theorem regionCheck_marked {invalid : OptionsValidation} (config : Config) (vpcService : Option VpcV1) (e : String)
    (h : (regionCheck invalid config vpcService).verdict = Verdict.fail e) : MarkedError e := by
  cases vpcService with
  | none =>
    by_cases hr : config.Region = ""
    · simp only [regionCheck, optionsError, hr, if_true] at h
      injection h with h
      subst h
      exact marked_append _ (marked_append _ (marked_append _ ⟨" Error fetching region : ", by decide⟩))
    · simp [regionCheck, optionsError, hr] at h
  | some vpc =>
    simp only [regionCheck] at h
    split at h
    · injection h with h
      subst h
      exact marked_append _ (marked_append _ (marked_append _ ⟨" Error fetching region : ", by decide⟩))
    · simp at h

theorem resourceGroupCheck_marked (rm : ResourceManagerFactory) (client : Option IBMCloudClient)
    (config : Config) (e : String)
    (h : (resourceGroupCheck rm client config).verdict = Verdict.fail e) : MarkedError e := by
  unfold resourceGroupCheck at h
  split at h
  · simp [CheckRun.skip] at h
  · split at h
    · simp at h
    · split at h
      · simp only at h
        injection h with h
        subst h
        exact marked_append _ (marked_append _ (marked_append _
          ⟨" Error creating instance of ResourceManagerV2 for resource group: ", by decide⟩))
      · simp at h
      · simp only at h
        split at h
        · injection h with h
          subst h
          exact marked_append _ (marked_append _ (marked_append _
            ⟨" Error fetching resource group : ", by decide⟩))
        · injection h with h
          subst h
          exact marked_append _ (marked_append _ (marked_append _
            ⟨" Resource group not found resource_group_id : ", by decide⟩))
        · simp at h

theorem volumeVerdict_marked (id : String) (v : Reply Volume) (e : String)
    (h : volumeVerdict id v = Verdict.fail e) : MarkedError e := by
  have m1 : MarkedError ("[ERROR] Boot volume provided is not found " ++ id ++ ":") :=
    marked_append _ (marked_append _ ⟨" Boot volume provided is not found ", by decide⟩)
  have m2 : MarkedError ("[ERROR] Error fetching volume " ++ id) :=
    marked_append _ ⟨" Error fetching volume ", by decide⟩
  have m3 : MarkedError ("[ERROR] Provided volume " ++ id
      ++ " is not a bootable volume. Please provide an unattached bootable volume") :=
    marked_append _ (marked_append _ ⟨" Provided volume ", by decide⟩)
  have m4 : MarkedError ("[ERROR] Provided volume " ++ id
      ++ " is either already attached or unusuble. Please provide an unattached bootable volume") :=
    marked_append _ (marked_append _ ⟨" Provided volume ", by decide⟩)
  rcases v with ⟨_ | ⟨_ | ⟨_ | arch⟩, _ | att, other⟩, _ | ⟨code⟩, _ | e'⟩ <;>
    simp only [volumeVerdict] at h <;> (try split_ifs at h) <;>
    first
      | (injection h with h; subst h; first | exact m1 | exact m2 | exact m3 | exact m4)
      | simp at h

theorem snapshotVerdict_marked (id : String) (s : Reply Snapshot) (e : String)
    (h : snapshotVerdict id s = Verdict.fail e) : MarkedError e := by
  have m1 : MarkedError ("[ERROR] Boot snapahot provided is not found " ++ id ++ ":") :=
    marked_append _ (marked_append _ ⟨" Boot snapahot provided is not found ", by decide⟩)
  have m2 : MarkedError ("[ERROR] Error fetching snapshot " ++ id) :=
    marked_append _ ⟨" Error fetching snapshot ", by decide⟩
  have m3 : MarkedError ("[ERROR] Provided snapshot " ++ id
      ++ " is not a bootable snapshot. Please provide an unattached bootable snapshot") :=
    marked_append _ (marked_append _ ⟨" Provided snapshot ", by decide⟩)
  rcases s with ⟨_ | ⟨_ | ⟨_ | arch⟩, other⟩, _ | ⟨code⟩, _ | e'⟩ <;>
    simp only [snapshotVerdict] at h <;> (try split_ifs at h) <;>
    first
      | (injection h with h; subst h; first | exact m1 | exact m2 | exact m3)
      | simp at h

theorem imageVerdict_marked (name : String) (l : Reply ImageCollection) (e : String)
    (h : imageVerdict name l = Verdict.fail e) : MarkedError e := by
  rcases l with ⟨_ | ⟨_ | ⟨i, is⟩⟩, _, _ | e'⟩ <;> simp only [imageVerdict] at h <;>
    first
      | (injection h with h; subst h
         first
          | exact marked_append _ ⟨" Error fetching custom image ", by decide⟩
          | exact marked_append _ (marked_append _
              ⟨" An Image exist with the same name ", by decide⟩))
      | simp at h

theorem securityGroupVerdict_marked (g : Reply SecurityGroup) (e : String)
    (h : securityGroupVerdict g = Verdict.fail e) : MarkedError e := by
  rcases g with ⟨_ | ⟨_ | id, _ | ⟨_ | vid⟩, other⟩, _, _ | e'⟩ <;>
    simp only [securityGroupVerdict] at h <;> (try split_ifs at h) <;>
    first
      | (injection h with h; subst h
         exact marked_append _ ⟨" Error fetching security group ", by decide⟩)
      | simp at h

theorem checks_marked {invalid : OptionsValidation} (rm : ResourceManagerFactory) (client : Option IBMCloudClient)
    (config : Config) (vpcService : Option VpcV1) :
    ∀ c ∈ checks invalid rm client config vpcService, ∀ e, c.verdict = Verdict.fail e →
      MarkedError e := by
  intro c hc e he
  simp only [checks, List.mem_cons, List.mem_singleton, List.not_mem_nil, or_false] at hc
  rcases hc with rfl | rfl | rfl | rfl | rfl | rfl
  · exact regionCheck_marked _ _ e he
  · exact resourceGroupCheck_marked _ _ _ e he
  · by_cases hid : config.VSIBootVolumeID = ""
    · simp [bootVolumeCheck, hid, CheckRun.skip] at he
    · cases vpcService with
      | none => simp [bootVolumeCheck, hid] at he
      | some vpc =>
        simp only [bootVolumeCheck, hid, if_false] at he
        exact volumeVerdict_marked _ _ e he
  · by_cases hid : config.VSIBootSnapshotID = ""
    · simp [bootSnapshotCheck, hid, CheckRun.skip] at he
    · cases vpcService with
      | none => simp [bootSnapshotCheck, hid] at he
      | some vpc =>
        simp only [bootSnapshotCheck, hid, if_false] at he
        exact snapshotVerdict_marked _ _ e he
  · cases vpcService with
    | none => simp [imageNameCheck] at he
    | some vpc =>
      simp only [imageNameCheck] at he
      exact imageVerdict_marked _ _ e he
  · by_cases hid : config.SecurityGroupID = ""
    · simp [securityGroupCheck, hid, CheckRun.skip] at he
    · cases vpcService with
      | none => simp [securityGroupCheck, hid] at he
      | some vpc =>
        simp only [securityGroupCheck, hid, if_false] at he
        exact securityGroupVerdict_marked _ e he

theorem scan_outcome (cs : List CheckRun) (last : CheckRun)
    (hcs : ∀ c ∈ cs, ∀ p, c.verdict = Verdict.pass p → p = none) (fx : Effects) :
    (∃ e calls c, c ∈ cs ++ [last] ∧ c.verdict = Verdict.fail e ∧
      scan (cs ++ [last]) fx =
        Res.ok StepAction.ActionHalt (Effects.report { fx with calls := calls } e)) ∨
    (∃ calls, scan (cs ++ [last]) fx = Res.panic { fx with calls := calls }) ∨
    (∃ calls p, last.verdict = Verdict.pass p ∧
      scan (cs ++ [last]) fx =
        Res.ok StepAction.ActionContinue (Effects.publish { fx with calls := calls } p)) := by
  induction cs generalizing fx with
  | nil =>
    cases hv : last.verdict with
    | pass p =>
      right; right
      refine ⟨fx.calls ++ last.calls, p, rfl, ?_⟩
      simp [scan, hv]
    | fail e =>
      left
      exact ⟨e, fx.calls ++ last.calls, last, by simp, hv, by simp [scan, hv]⟩
    | crash =>
      right; left
      exact ⟨fx.calls ++ last.calls, by simp [scan, hv]⟩
  | cons c rest ih =>
    have hrest : ∀ d ∈ rest, ∀ p, d.verdict = Verdict.pass p → p = none :=
      fun d hd => hcs d (List.mem_cons_of_mem _ hd)
    cases hv : c.verdict with
    | pass p =>
      have hp : p = none := hcs c (List.mem_cons_self _ _) p hv
      subst hp
      rcases ih hrest { fx with calls := fx.calls ++ c.calls } with
        ⟨e, calls, d, hd, hde, hs⟩ | ⟨calls, hs⟩ | ⟨calls, p, hl, hs⟩
      · left
        exact ⟨e, calls, d, List.mem_cons_of_mem _ hd, hde, by
          simp only [List.cons_append, scan, hv, Effects.publish]; exact hs⟩
      · right; left
        exact ⟨calls, by simp only [List.cons_append, scan, hv, Effects.publish]; exact hs⟩
      · right; right
        exact ⟨calls, p, hl, by
          simp only [List.cons_append, scan, hv, Effects.publish]; exact hs⟩
    | fail e =>
      left
      exact ⟨e, fx.calls ++ c.calls, c, by simp, hv, by simp [scan, hv]⟩
    | crash =>
      right; left
      exact ⟨fx.calls ++ c.calls, by simp [scan, hv]⟩

theorem checks_split {invalid : OptionsValidation} (rm : ResourceManagerFactory) (client : Option IBMCloudClient)
    (config : Config) (vpcService : Option VpcV1) :
    checks invalid rm client config vpcService =
      [regionCheck invalid config vpcService, resourceGroupCheck rm client config,
        bootVolumeCheck config vpcService, bootSnapshotCheck config vpcService,
        imageNameCheck config vpcService] ++ [securityGroupCheck config vpcService] := rfl

theorem early_checks_publish_nothing {invalid : OptionsValidation} (rm : ResourceManagerFactory)
    (client : Option IBMCloudClient) (config : Config) (vpcService : Option VpcV1) :
    ∀ c ∈ [regionCheck invalid config vpcService, resourceGroupCheck rm client config,
        bootVolumeCheck config vpcService, bootSnapshotCheck config vpcService,
        imageNameCheck config vpcService],
      ∀ p, c.verdict = Verdict.pass p → p = none := by
  intro c hc p hp
  have hpass : c.verdict.passes = true := by rw [hp]; rfl
  have hnone : c.verdict = Verdict.pass none := by
    simp only [List.mem_cons, List.mem_singleton, List.not_mem_nil, or_false] at hc
    rcases hc with rfl | rfl | rfl | rfl | rfl
    · obtain ⟨_, _, _, h3⟩ := regionCheck_passes hpass
      rw [h3]
    · exact resourceGroupCheck_passes hpass
    · exact bootVolumeCheck_passes hpass
    · exact bootSnapshotCheck_passes hpass
    · exact imageNameCheck_passes hpass
  rw [hp] at hnone
  simpa using hnone

theorem securityGroupCheck_skip (config : Config) (vpcService : Option VpcV1)
    (h : config.SecurityGroupID = "") (p : Option String)
    (hp : (securityGroupCheck config vpcService).verdict = Verdict.pass p) : p = none := by
  simp [securityGroupCheck, h, CheckRun.skip] at hp
  exact hp.symm

/-- Every execution of the step ends in one of four ways: a halt with one marked error
stored and shown, a panic before anything is written, or a return of `ActionContinue`
either with nothing written or, with a security group ID, with `user_sec_grp_vpc` alone
written. -/
theorem runStep_outcome (invalid : OptionsValidation) (rm : ResourceManagerFactory) (state : StateBag) :
    (∃ e calls, MarkedError e ∧ runStep invalid rm state = halted state e calls) ∨
    (∃ calls, runStep invalid rm state = Res.panic ⟨state, [], [], calls⟩) ∨
    (∃ calls, runStep invalid rm state = Res.ok StepAction.ActionContinue ⟨state, [], [], calls⟩) ∨
    (∃ calls v client config vpcService, entries state = some (client, config, vpcService) ∧
      config.SecurityGroupID ≠ "" ∧
      runStep invalid rm state = Res.ok StepAction.ActionContinue
        ⟨state.Put "user_sec_grp_vpc" (Value.string v),
          [("user_sec_grp_vpc", Value.string v)], [], calls⟩) := by
  rw [runStep_eq_scan]
  rcases hent : entries state with _ | ⟨client, config, vpcService⟩
  · right; left
    exact ⟨[], rfl⟩
  · simp only []
    rw [checks_split]
    rcases scan_outcome _ (securityGroupCheck config vpcService)
        (early_checks_publish_nothing rm client config vpcService) (Effects.start state) with
      ⟨e, calls, c, hc, hce, hs⟩ | ⟨calls, hs⟩ | ⟨calls, p, hl, hs⟩
    · left
      refine ⟨e, calls, @checks_marked invalid rm client config vpcService c ?_ e hce, ?_⟩
      · rw [checks_split]; exact hc
      · rw [hs]; simp [halted, Effects.report, Effects.start]
    · right; left
      exact ⟨calls, by rw [hs]; simp [Effects.start]⟩
    · cases p with
      | none =>
        right; right; left
        exact ⟨calls, by rw [hs]; simp [Effects.publish, Effects.start]⟩
      | some v =>
        right; right; right
        refine ⟨calls, v, client, config, vpcService, rfl, ?_, ?_⟩
        · intro hsg
          have := securityGroupCheck_skip config vpcService hsg _ hl
          simp at this
        · rw [hs]; simp [Effects.publish, Effects.start]

/-- C7: whenever `Run` returns `ActionContinue`, the state bag agrees with the one it
received on every key other than `user_sec_grp_vpc`; without a security group ID a return
of `ActionContinue` leaves the bag unchanged and writes nothing; in the scenario region
`us-south`, no resource group, no boot volume, no boot snapshot, image name
`my-new-image` absent from the listing, no security group, `Run` returns `ActionContinue`
with the bag unchanged; and `Cleanup` never changes the state bag. -/
theorem Run_continue_frame :
    (∀ (invalid : OptionsValidation) (rm : ResourceManagerFactory) (state : StateBag)
      (fx : Effects),
      runStep invalid rm state = Res.ok StepAction.ActionContinue fx →
      ∀ key, key ≠ "user_sec_grp_vpc" → fx.state.Get key = state.Get key) ∧
    (∀ (invalid : OptionsValidation) (rm : ResourceManagerFactory) (state : StateBag)
      (client : Option IBMCloudClient) (config : Config) (vpcService : Option VpcV1)
      (fx : Effects),
      entries state = some (client, config, vpcService) → config.SecurityGroupID = "" →
      runStep invalid rm state = Res.ok StepAction.ActionContinue fx →
      fx.state = state ∧ fx.puts = []) ∧
    (∀ (invalid : OptionsValidation) (rm : ResourceManagerFactory) (state : StateBag)
      (client : Option IBMCloudClient) (config : Config) (vpc : VpcV1),
      entries state = some (client, config, some vpc) →
      config.Region = "us-south" → config.ResourceGroupID = "" →
      config.VSIBootVolumeID = "" → config.VSIBootSnapshotID = "" →
      config.ImageName = "my-new-image" → config.SecurityGroupID = "" →
      (vpc.GetRegion "us-south").err = none →
      (vpc.ListImages "my-new-image").err = none →
      (vpc.ListImages "my-new-image").result = some ⟨[]⟩ →
      runStep invalid rm state = Res.ok StepAction.ActionContinue
        ⟨state, [], [], [Call.GetRegion "us-south", Call.ListImages "my-new-image"]⟩) ∧
    (∀ state : StateBag, Cleanup state = state) := by
  refine ⟨?_, ?_, ?_, fun _ => rfl⟩
  · intro invalid rm state fx hrun key hkey
    rcases runStep_outcome invalid rm state with ⟨e, calls, -, hs⟩ | ⟨calls, hs⟩ | ⟨calls, hs⟩ |
      ⟨calls, v, client, config, vpcService, -, -, hs⟩
    · rw [hs] at hrun; simp [halted] at hrun
    · rw [hs] at hrun; simp at hrun
    · rw [hs] at hrun
      injection hrun with _ hfx
      subst hfx
      rfl
    · rw [hs] at hrun
      injection hrun with _ hfx
      subst hfx
      simp [StateBag.Get, StateBag.Put, hkey]
  · intro invalid rm state client config vpcService fx hent hsg hrun
    rcases runStep_outcome invalid rm state with ⟨e, calls, -, hs⟩ | ⟨calls, hs⟩ | ⟨calls, hs⟩ |
      ⟨calls, v, client2, config2, vpcService2, hent2, hsg2, hs⟩
    · rw [hs] at hrun; simp [halted] at hrun
    · rw [hs] at hrun; simp at hrun
    · rw [hs] at hrun
      injection hrun with _ hfx
      subst hfx
      exact ⟨rfl, rfl⟩
    · rw [hent] at hent2
      injection hent2 with hent2
      injection hent2 with _ hent2
      injection hent2 with hc _
      subst hc
      exact absurd hsg hsg2
  · intro invalid rm state client config vpc hent hregion hrgid hvid hsid hname hsg hr hle hlr
    rw [runStep_of_entries hent]
    simp [checks, scan, regionCheck, resourceGroupCheck, bootVolumeCheck, bootSnapshotCheck,
      imageNameCheck, imageVerdict, securityGroupCheck, CheckRun.skip, Effects.publish,
      Effects.start, hregion, hrgid, hvid, hsid, hname, hsg, hr, hle, hlr]

/-- C8: the uniform error contract. For every input, `Run` returns `ActionHalt` exactly
when it wrote under the key `error`; on `ActionHalt` exactly one line went to `ui.Error`,
that line is the text of the stored error and starts with `[ERROR]`, the error is the only
write and `user_sec_grp_vpc` is not written; on `ActionContinue` nothing is written under
`error` and nothing is sent to `ui.Error`. -/
theorem Run_error_contract (invalid : OptionsValidation) (rm : ResourceManagerFactory) (state : StateBag) :
    ((runStep invalid rm state).action = some StepAction.ActionHalt ↔
      ∃ v, ("error", v) ∈ (runStep invalid rm state).effects.puts) ∧
    ((runStep invalid rm state).action = some StepAction.ActionHalt →
      ∃ msg, (runStep invalid rm state).effects.uiErrors = [msg] ∧
        (runStep invalid rm state).effects.puts = [("error", Value.error ⟨msg⟩)] ∧
        (runStep invalid rm state).effects.state = state.Put "error" (Value.error ⟨msg⟩) ∧
        MarkedError msg ∧
        ∀ v, ("user_sec_grp_vpc", v) ∉ (runStep invalid rm state).effects.puts) ∧
    ((runStep invalid rm state).action = some StepAction.ActionContinue →
      (∀ v, ("error", v) ∉ (runStep invalid rm state).effects.puts) ∧
        (runStep invalid rm state).effects.uiErrors = []) := by
  rcases runStep_outcome invalid rm state with ⟨e, calls, hm, hs⟩ | ⟨calls, hs⟩ | ⟨calls, hs⟩ |
    ⟨calls, v, client, config, vpcService, -, -, hs⟩
  · rw [hs]
    refine ⟨?_, ?_, ?_⟩
    · simp [halted, Res.action, Res.effects]
    · intro _
      exact ⟨e, rfl, rfl, rfl, hm, by simp [halted, Res.effects]⟩
    · simp [halted, Res.action]
  · rw [hs]
    simp [Res.action, Res.effects]
  · rw [hs]
    simp [Res.action, Res.effects]
  · rw [hs]
    simp [Res.action, Res.effects]

/-! ## The security group check, the error texts and panics -/

theorem contains_data {msg v : String} (h : Contains msg v) : v.data <:+: msg.data := by
  obtain ⟨a, b, rfl⟩ := h
  exact ⟨a.data, b.data, by simp [String.data_append]⟩

/-- The security group check in full, once the five earlier checks have passed: a lookup
error halts with the fetch error; a group with an empty ID makes `Run` return
`ActionContinue` with nothing written; a group with a non-empty ID and a VPC ID makes
`Run` return `ActionContinue` with the VPC ID stored under `user_sec_grp_vpc`; an answer
without error that lacks the group, its ID, or (for a non-empty ID) the VPC reference or
its ID makes `Run` panic. -/
theorem Run_security_group_check (invalid : OptionsValidation) (rm : ResourceManagerFactory) (state : StateBag)
    (client : Option IBMCloudClient) (config : Config) (vpc : VpcV1)
    (h : entries state = some (client, config, some vpc))
    (hid : config.SecurityGroupID ≠ "")
    (hregion : (regionCheck invalid config (some vpc)).verdict.passes = true)
    (hrg : (resourceGroupCheck rm client config).verdict.passes = true)
    (hvol : (bootVolumeCheck config (some vpc)).verdict.passes = true)
    (hsnap : (bootSnapshotCheck config (some vpc)).verdict.passes = true)
    (himg : (imageNameCheck config (some vpc)).verdict.passes = true)
    (calls : List Call)
    (hcalls : calls = (regionCheck invalid config (some vpc)).calls
      ++ (resourceGroupCheck rm client config).calls
      ++ (bootVolumeCheck config (some vpc)).calls
      ++ (bootSnapshotCheck config (some vpc)).calls
      ++ (imageNameCheck config (some vpc)).calls
      ++ [Call.GetSecurityGroup config.SecurityGroupID]) :
    (∀ e, (vpc.GetSecurityGroup config.SecurityGroupID).err = some e →
      runStep invalid rm state =
        halted state ("[ERROR] Error fetching security group " ++ e.Error) calls) ∧
    (∀ g, (vpc.GetSecurityGroup config.SecurityGroupID).err = none →
      (vpc.GetSecurityGroup config.SecurityGroupID).result = some g → g.ID = some "" →
      runStep invalid rm state = Res.ok StepAction.ActionContinue ⟨state, [], [], calls⟩) ∧
    (∀ g id vpcID, (vpc.GetSecurityGroup config.SecurityGroupID).err = none →
      (vpc.GetSecurityGroup config.SecurityGroupID).result = some g → g.ID = some id →
      id ≠ "" → g.VPC = some ⟨some vpcID⟩ →
      runStep invalid rm state = Res.ok StepAction.ActionContinue
        ⟨state.Put "user_sec_grp_vpc" (Value.string vpcID),
          [("user_sec_grp_vpc", Value.string vpcID)], [], calls⟩) ∧
    ((vpc.GetSecurityGroup config.SecurityGroupID).err = none →
      ((vpc.GetSecurityGroup config.SecurityGroupID).result = none ∨
        ∃ g, (vpc.GetSecurityGroup config.SecurityGroupID).result = some g ∧
          (g.ID = none ∨ ∃ id, g.ID = some id ∧ id ≠ "" ∧
            (g.VPC = none ∨ g.VPC = some ⟨none⟩))) →
      runStep invalid rm state = Res.panic ⟨state, [], [], calls⟩) := by
  have hb : ∀ b ∈ [regionCheck invalid config (some vpc), resourceGroupCheck rm client config,
      bootVolumeCheck config (some vpc), bootSnapshotCheck config (some vpc),
      imageNameCheck config (some vpc)], b.verdict.passes = true := by
    simp [hregion, hrg, hvol, hsnap, himg]
  have hrun := runStep_reach h [regionCheck invalid config (some vpc), resourceGroupCheck rm client config,
      bootVolumeCheck config (some vpc), bootSnapshotCheck config (some vpc),
      imageNameCheck config (some vpc)]
    (securityGroupCheck config (some vpc)) [] rfl hb
  have hc : [regionCheck invalid config (some vpc), resourceGroupCheck rm client config,
      bootVolumeCheck config (some vpc), bootSnapshotCheck config (some vpc),
      imageNameCheck config (some vpc)].flatMap CheckRun.calls
        ++ (securityGroupCheck config (some vpc)).calls = calls := by
    rw [hcalls]; simp [securityGroupCheck, hid]
  have hsv : (securityGroupCheck config (some vpc)).verdict =
      securityGroupVerdict (vpc.GetSecurityGroup config.SecurityGroupID) := by
    simp [securityGroupCheck, hid]
  simp only [step, hc, hsv] at hrun
  rw [hrun]
  refine ⟨?_, ?_, ?_, ?_⟩
  · intro e he
    simp [securityGroupVerdict, he, halted, Effects.report]
  · intro g he hres hgid
    simp [securityGroupVerdict, he, hres, hgid, Effects.publish, scan]
  · intro g id vpcID he hres hgid hne hv
    simp [securityGroupVerdict, he, hres, hgid, hne, hv, Effects.publish, scan]
  · intro he hbad
    rcases hbad with hres | ⟨g, hres, hgid | ⟨id, hgid, hne, hv | hv⟩⟩
    · simp [securityGroupVerdict, he, hres]
    · simp [securityGroupVerdict, he, hres, hgid]
    · simp [securityGroupVerdict, he, hres, hgid, hne, hv]
    · simp [securityGroupVerdict, he, hres, hgid, hne, hv]

/-- C6, at the failing input: the configuration names the security group `sg-1`, every
earlier check passes and `GetSecurityGroup` succeeds (no error) with a group that carries
no ID. `Run` then returns neither `ActionContinue` nor `ActionHalt`: it panics on
`*secGrp.ID`, right after the security group lookup. -/
theorem Run_security_group_without_ID :
    entries (exampleBag groupConfig groupWithoutIDVpc) =
      some (some exampleClient, groupConfig, some groupWithoutIDVpc) ∧
    (groupWithoutIDVpc.GetSecurityGroup groupConfig.SecurityGroupID).err = none ∧
    (∃ g, (groupWithoutIDVpc.GetSecurityGroup groupConfig.SecurityGroupID).result = some g ∧
      g.ID = none) ∧
    runStep exampleValidation exampleFactory (exampleBag groupConfig groupWithoutIDVpc) =
      Res.panic ⟨exampleBag groupConfig groupWithoutIDVpc, [], [],
        [Call.GetRegion "us-south", Call.ListImages "my-new-image",
          Call.GetSecurityGroup "sg-1"]⟩ ∧
    (runStep exampleValidation exampleFactory (exampleBag groupConfig groupWithoutIDVpc)).action ≠
      some StepAction.ActionContinue :=
  ⟨rfl, rfl, ⟨_, rfl, rfl⟩, rfl, by decide⟩

/-- C9, at two failing inputs: when the security group lookup for `sg-1` fails with the
error `boom`, the stored error reads `[ERROR] Error fetching security group boom` and
does not contain `sg-1`; when the image listing for `my-new-image` fails with the error
`boom`, the stored error reads `[ERROR] Error fetching custom image boom` and does not
contain `my-new-image`. -/
theorem Run_failure_text_without_value :
    (runStep exampleValidation exampleFactory (exampleBag groupConfig failingGroupVpc) =
        halted (exampleBag groupConfig failingGroupVpc)
          "[ERROR] Error fetching security group boom"
          [Call.GetRegion "us-south", Call.ListImages "my-new-image",
            Call.GetSecurityGroup "sg-1"] ∧
      ¬ Contains "[ERROR] Error fetching security group boom" groupConfig.SecurityGroupID) ∧
    (runStep exampleValidation exampleFactory (exampleBag exampleConfig failingListVpc) =
        halted (exampleBag exampleConfig failingListVpc)
          "[ERROR] Error fetching custom image boom"
          [Call.GetRegion "us-south", Call.ListImages "my-new-image"] ∧
      ¬ Contains "[ERROR] Error fetching custom image boom" exampleConfig.ImageName) :=
  ⟨⟨rfl, fun h => absurd (contains_data h) (by decide)⟩,
    ⟨rfl, fun h => absurd (contains_data h) (by decide)⟩⟩

/-- C10, at two failing inputs that satisfy the precondition (typed `client`, `ui` and
`config` entries): on a state bag without a `vpcService` entry `Run` panics in the region
lookup, before any request; on a security group answer without error whose group has an
ID and no VPC reference `Run` panics on `*secGrp.VPC.ID`. In both cases it returns
neither `ActionContinue` nor `ActionHalt`. -/
theorem Run_can_panic :
    (entries (bagWithoutService exampleConfig) = some (some exampleClient, exampleConfig, none) ∧
      runStep exampleValidation exampleFactory (bagWithoutService exampleConfig) =
        Res.panic ⟨bagWithoutService exampleConfig, [], [], []⟩ ∧
      (runStep exampleValidation exampleFactory (bagWithoutService exampleConfig)).action = none) ∧
    (entries (exampleBag groupConfig groupWithoutNetworkVpc) =
        some (some exampleClient, groupConfig, some groupWithoutNetworkVpc) ∧
      runStep exampleValidation exampleFactory (exampleBag groupConfig groupWithoutNetworkVpc) =
        Res.panic ⟨exampleBag groupConfig groupWithoutNetworkVpc, [], [],
          [Call.GetRegion "us-south", Call.ListImages "my-new-image",
            Call.GetSecurityGroup "sg-1"]⟩ ∧
      (runStep exampleValidation exampleFactory (exampleBag groupConfig groupWithoutNetworkVpc)).action = none) :=
  ⟨⟨rfl, rfl, rfl⟩, ⟨rfl, rfl, rfl⟩⟩

/-- Without a `vpcService` entry and with an empty region name the region lookup is
rejected by the options validation of the SDK before the nil service is read: `Run`
returns `ActionHalt` with the region error, whatever the text of the validation error. -/
theorem Run_without_service_empty_region (invalid : OptionsValidation)
    (rm : ResourceManagerFactory) :
    runStep invalid rm (bagWithoutService noRegionConfig) =
      halted (bagWithoutService noRegionConfig)
        ("[ERROR] Error fetching region : " ++ "" ++ ": " ++ (invalid (Call.GetRegion "")).Error)
        [Call.GetRegion ""] :=
  rfl

/-- C1, at two failing inputs with the boot volume `vol-1`, on which `GetVolume` answers
without error and without a volume. On the first the region lookup succeeds, no resource
group or snapshot is configured and the image name is taken, so that the earliest check
that fails is the image name check; `Run` does not return `ActionHalt` with the collision
error: it panics on `bootVolume.OperatingSystem` right after the volume lookup, before
the image listing. On the second the image name is free, so that no check fails; `Run`
does not return `ActionContinue`: it panics at the same place. -/
theorem Run_panics_before_earliest_failure :
    (entries (exampleBag volumeConfig volumeWithoutResultTakenNameVpc) =
        some (some exampleClient, volumeConfig, some volumeWithoutResultTakenNameVpc) ∧
      (volumeWithoutResultTakenNameVpc.GetRegion volumeConfig.Region).err = none ∧
      volumeWithoutResultTakenNameVpc.GetVolume volumeConfig.VSIBootVolumeID =
        ⟨none, some ⟨200⟩, none⟩ ∧
      volumeWithoutResultTakenNameVpc.ListImages volumeConfig.ImageName =
        ⟨some ⟨[⟨[]⟩]⟩, some ⟨200⟩, none⟩ ∧
      (checks exampleValidation exampleFactory (some exampleClient) volumeConfig
          (some volumeWithoutResultTakenNameVpc)).map CheckRun.verdict =
        [Verdict.pass none, Verdict.pass none, Verdict.crash, Verdict.pass none,
          Verdict.fail "[ERROR] An Image exist with the same name my-new-image:",
          Verdict.pass none] ∧
      runStep exampleValidation exampleFactory
          (exampleBag volumeConfig volumeWithoutResultTakenNameVpc) =
        Res.panic ⟨exampleBag volumeConfig volumeWithoutResultTakenNameVpc, [], [],
          [Call.GetRegion "us-south", Call.GetVolume "vol-1"]⟩ ∧
      (runStep exampleValidation exampleFactory
          (exampleBag volumeConfig volumeWithoutResultTakenNameVpc)).action ≠
        some StepAction.ActionHalt) ∧
    (entries (exampleBag volumeConfig volumeWithoutResultVpc) =
        some (some exampleClient, volumeConfig, some volumeWithoutResultVpc) ∧
      (checks exampleValidation exampleFactory (some exampleClient) volumeConfig
          (some volumeWithoutResultVpc)).map CheckRun.verdict =
        [Verdict.pass none, Verdict.pass none, Verdict.crash, Verdict.pass none,
          Verdict.pass none, Verdict.pass none] ∧
      runStep exampleValidation exampleFactory (exampleBag volumeConfig volumeWithoutResultVpc) =
        Res.panic ⟨exampleBag volumeConfig volumeWithoutResultVpc, [], [],
          [Call.GetRegion "us-south", Call.GetVolume "vol-1"]⟩ ∧
      (runStep exampleValidation exampleFactory
          (exampleBag volumeConfig volumeWithoutResultVpc)).action ≠
        some StepAction.ActionContinue) :=
  ⟨⟨rfl, rfl, rfl, rfl, rfl, rfl, by decide⟩, ⟨rfl, rfl, rfl, by decide⟩⟩

/-! ## The theorems at sample inputs -/

/-- Witness for C2: the resource group `rg-1` is looked up and the answer carries neither
a group nor an error; `Run` halts with the not-found error. -/
theorem Run_resource_group_check_witness :
    runStep exampleValidation emptyAnswerFactory (exampleBag resourceGroupConfig exampleVpc) =
      halted (exampleBag resourceGroupConfig exampleVpc)
        "[ERROR] Resource group not found resource_group_id : rg-1: %!s(<nil>)"
        [Call.GetRegion "us-south",
          Call.NewResourceManagerV2UsingExternalConfig "api-key"
            "https://iam.cloud.ibm.com/identity/token",
          Call.GetResourceGroup "rg-1"] ∧
    Contains "[ERROR] Resource group not found resource_group_id : rg-1: %!s(<nil>)" "rg-1" :=
  ((Run_resource_group_check exampleValidation emptyAnswerFactory (exampleBag resourceGroupConfig exampleVpc)
      (some exampleClient) resourceGroupConfig (some exampleVpc) rfl).1
    exampleClient exampleVpc ⟨fun _ => ⟨none, some ⟨200⟩, none⟩⟩ (by decide) rfl rfl rfl rfl).2
    rfl rfl

/-- Witness for C3: the boot volume `vol-1` is found, bootable and attached; `Run` halts
with the already-attached error. -/
theorem Run_boot_volume_check_witness :
    ∃ vpc, some attachedVolumeVpc = some vpc ∧
      runStep exampleValidation exampleFactory (exampleBag volumeConfig attachedVolumeVpc) =
        halted (exampleBag volumeConfig attachedVolumeVpc)
          ("[ERROR] Provided volume vol-1 is either already attached or unusuble. "
            ++ "Please provide an unattached bootable volume")
          [Call.GetRegion "us-south", Call.GetVolume "vol-1"] := by
  obtain ⟨vpc, hvpc, -, -, -, h4, -⟩ :=
    Run_boot_volume_check exampleValidation exampleFactory (exampleBag volumeConfig attachedVolumeVpc)
      (some exampleClient) volumeConfig (some attachedVolumeVpc) rfl (by decide) rfl rfl
  refine ⟨vpc, hvpc, ?_⟩
  injection hvpc with hvpc
  subst hvpc
  exact h4 ⟨some ⟨some "amd64"⟩, some "attached", []⟩ "amd64" "attached" rfl rfl rfl rfl
    (by decide)

/-- Witness for C4: with the boot volume `vol-1` and the boot snapshot `snap-1`, the
volume passes and the snapshot lookup is answered with 404; `Run` halts with the
snapshot-not-found error. -/
theorem Run_boot_snapshot_check_witness :
    ∃ vpc, some missingSnapshotVpc = some vpc ∧
      runStep exampleValidation exampleFactory (exampleBag snapshotConfig missingSnapshotVpc) =
        halted (exampleBag snapshotConfig missingSnapshotVpc)
          "[ERROR] Boot snapahot provided is not found snap-1:"
          [Call.GetRegion "us-south", Call.GetVolume "vol-1", Call.GetSnapshot "snap-1"] := by
  obtain ⟨vpc, hvpc, -, h1, -⟩ :=
    Run_boot_snapshot_check exampleValidation exampleFactory (exampleBag snapshotConfig missingSnapshotVpc)
      (some exampleClient) snapshotConfig (some missingSnapshotVpc) rfl (by decide) rfl rfl rfl
  refine ⟨vpc, hvpc, ?_⟩
  injection hvpc with hvpc
  subst hvpc
  exact h1 ⟨"Not Found"⟩ ⟨404⟩ rfl rfl rfl

/-- Witness for C5: in the scenario with the image name taken, `Run` halts and the
`error` entry holds the collision error naming `my-new-image`. -/
theorem Run_image_name_check_witness :
    ∃ vpc, some takenNameVpc = some vpc ∧
      (runStep exampleValidation exampleFactory (exampleBag exampleConfig takenNameVpc)).action =
        some StepAction.ActionHalt ∧
      (runStep exampleValidation exampleFactory (exampleBag exampleConfig takenNameVpc)).effects.state.Get "error" =
        some (Value.error ⟨"[ERROR] An Image exist with the same name my-new-image:"⟩) ∧
      Contains "[ERROR] An Image exist with the same name my-new-image:" "my-new-image" := by
  obtain ⟨vpc, hvpc, -, h1, -⟩ :=
    Run_image_name_check exampleValidation exampleFactory (exampleBag exampleConfig takenNameVpc)
      (some exampleClient) exampleConfig (some takenNameVpc) rfl rfl rfl rfl rfl
  refine ⟨vpc, hvpc, ?_⟩
  injection hvpc with hvpc
  subst hvpc
  obtain ⟨h2, h3, h4⟩ := h1 ⟨[⟨[]⟩]⟩ rfl rfl (by decide)
  exact ⟨by rw [h2]; rfl, h3, h4⟩

/-- Witness for C7: the end-to-end scenario returns `ActionContinue` with the state bag
unchanged. -/
theorem Run_continue_frame_witness :
    runStep exampleValidation exampleFactory (exampleBag exampleConfig exampleVpc) =
      Res.ok StepAction.ActionContinue
        ⟨exampleBag exampleConfig exampleVpc, [], [],
          [Call.GetRegion "us-south", Call.ListImages "my-new-image"]⟩ :=
  Run_continue_frame.2.2.1 exampleValidation exampleFactory (exampleBag exampleConfig exampleVpc)
    (some exampleClient) exampleConfig exampleVpc rfl rfl rfl rfl rfl rfl rfl rfl rfl rfl

/-- Witness for C8: in the scenario with the image name taken `Run` halts, and one marked
line is shown that is the text of the only stored value. -/
theorem Run_error_contract_witness :
    ∃ msg,
      (runStep exampleValidation exampleFactory (exampleBag exampleConfig takenNameVpc)).effects.uiErrors = [msg] ∧
      (runStep exampleValidation exampleFactory (exampleBag exampleConfig takenNameVpc)).effects.puts =
        [("error", Value.error ⟨msg⟩)] ∧
      (runStep exampleValidation exampleFactory (exampleBag exampleConfig takenNameVpc)).effects.state =
        (exampleBag exampleConfig takenNameVpc).Put "error" (Value.error ⟨msg⟩) ∧
      MarkedError msg ∧
      ∀ v, ("user_sec_grp_vpc", v) ∉
        (runStep exampleValidation exampleFactory (exampleBag exampleConfig takenNameVpc)).effects.puts :=
  (Run_error_contract exampleValidation exampleFactory (exampleBag exampleConfig takenNameVpc)).2.1 rfl

end VerifyInput
